import Mathlib

/-!
# Weathered Friis propagation-loss model

A shallow embedding of `src/C++_code/weatheredfriis.hpp` (class
`WeatheredFriisPropagationLossModel`) and of the weather callback, the loss chain and the
weather schedule of `src/C++_code/final_rain.cc`.

Conventions of the embedding.

* `double` is read as an ordered field `R`; the theorems that need analysis take `R = ℝ`.
  The `<cmath>` functions `log10`, `pow` and the constant `M_PI` are arguments of the
  definitions that call them, and the theorems pass `Real.logb 10`, real powers and `Real.pi`.
* `int8_t` values are integers in `[-128, 127]`; the conversion from `int` is `int8_cast`.
* `DoCalcRxPower` takes the value of `a->GetDistanceFrom(b)` as its `distance` argument and
  returns both what it writes to `std::cout` and what it returns; falling off the end of the
  `switch` (no `return` is reached) is the result `none`.
-/

namespace WeatheredFriis

/-- The data members of `WeatheredFriisPropagationLossModel` (weatheredfriis.hpp, lines 55-59). -/
structure WeatheredFriisPropagationLossModel (R : Type) where
  m_lambda : R
  m_frequency : R
  m_systemLoss : R
  m_minLoss : R
  weather : Int

/-- Conversion of an `int` to `int8_t`: reduction modulo 256 into `[-128, 127]`. -/
def int8_cast (v : Int) : Int := (v + 128) % 256 - 128

/-- The function `std::max(a, b)`, which is `(a < b) ? b : a`. -/
def std_max {R : Type} [LinearOrderedField R] (a b : R) : R :=
  if a < b then b else a

/-- Speed of light in vacuum, the constant `C` of `SetFrequency` (line 139). -/
def C {R : Type} [LinearOrderedField R] : R := 299792458

/-- The line `DoCalcRxPower` writes to `std::cout` when the distance is below three wavelengths. -/
def farFieldMsg : String :=
  "distance not within the far field region => inaccurate propagation loss value\n"

/-- What one call of `DoCalcRxPower` does: the lines written to `std::cout`, and the value
returned (`none` when no `return` statement is reached). -/
structure RxResult (R : Type) where
  out : List String
  ret : Option R

/-- Member function `SetWeather` (lines 67-71): the guard is `weatherval < 3`, the store narrows to `int8_t`. -/
def SetWeather {R : Type} (self : WeatheredFriisPropagationLossModel R) (weatherval : Int) :
    WeatheredFriisPropagationLossModel R :=
  if weatherval < 3 then { self with weather := int8_cast weatherval } else self

/-- Member function `SetSystemLoss` (lines 111-115). -/
def SetSystemLoss {R : Type} (self : WeatheredFriisPropagationLossModel R) (systemLoss : R) :
    WeatheredFriisPropagationLossModel R :=
  { self with m_systemLoss := systemLoss }

/-- Member function `GetSystemLoss` (lines 117-121). -/
def GetSystemLoss {R : Type} (self : WeatheredFriisPropagationLossModel R) : R :=
  self.m_systemLoss

/-- Member function `SetMinLoss` (lines 123-127). -/
def SetMinLoss {R : Type} (self : WeatheredFriisPropagationLossModel R) (minLoss : R) :
    WeatheredFriisPropagationLossModel R :=
  { self with m_minLoss := minLoss }

/-- Member function `GetMinLoss` (lines 129-133). -/
def GetMinLoss {R : Type} (self : WeatheredFriisPropagationLossModel R) : R :=
  self.m_minLoss

/-- Member function `SetFrequency` (lines 135-141): stores the frequency and recomputes the wavelength. -/
def SetFrequency {R : Type} [LinearOrderedField R] (self : WeatheredFriisPropagationLossModel R)
    (frequency : R) : WeatheredFriisPropagationLossModel R :=
  { self with m_frequency := frequency, m_lambda := C / frequency }

/-- Member function `GetFrequency` (lines 143-147). -/
def GetFrequency {R : Type} (self : WeatheredFriisPropagationLossModel R) : R :=
  self.m_frequency

/-- Member function `DbmToW` (lines 149-154), with `std::pow` as the argument `pow`. -/
def DbmToW {R : Type} [LinearOrderedField R] (pow : R → R → R) (dbm : R) : R :=
  let mw := pow 10 (dbm / 10)
  mw / 1000

/-- Member function `DbmFromW` (lines 156-161), with `std::log10` as the argument `log10`. -/
def DbmFromW {R : Type} [LinearOrderedField R] (log10 : R → R) (w : R) : R :=
  let dbm := log10 (w * 1000) * 10
  dbm

/-- Member function `DoCalcRxPower` (lines 163-217). `distance` is the value of `a->GetDistanceFrom(b)`;
`log10` and `M_PI` are the `<cmath>` logarithm and constant. The `switch` has the cases
0, 1 and 2 and no `default`. -/
def DoCalcRxPower {R : Type} [LinearOrderedField R] (log10 : R → R) (M_PI : R)
    (self : WeatheredFriisPropagationLossModel R) (txPowerDbm distance : R) : RxResult R :=
  let out : List String := if distance < 3 * self.m_lambda then [farFieldMsg] else []
  if distance ≤ 0 then
    ⟨out, some (txPowerDbm - self.m_minLoss)⟩
  else
    let numerator := self.m_lambda * self.m_lambda
    let denominator := 16 * M_PI * M_PI * distance * distance * self.m_systemLoss
    let lossDb := -10 * log10 (numerator / denominator)
    if self.weather = 0 then
      ⟨out, some (txPowerDbm - std_max lossDb self.m_minLoss - 0)⟩
    else if self.weather = 1 then
      ⟨out, some (txPowerDbm - std_max lossDb self.m_minLoss - 5)⟩
    else if self.weather = 2 then
      ⟨out, some (txPowerDbm - std_max lossDb self.m_minLoss - 10)⟩
    else
      ⟨out, none⟩

/-- Function `SetRainning` of final_rain.cc (lines 52-56): writes a line and forwards its `int8_t`
argument, promoted to `int`, to `SetWeather`. The result is the line written and the stage. -/
def SetRainning {R : Type} (friis : WeatheredFriisPropagationLossModel R) (weatherval : Int) :
    List String × WeatheredFriisPropagationLossModel R :=
  (["In Set Rainning\n"], SetWeather friis (int8_cast weatherval))

/-- The operations of a stage, as calls with their arguments. -/
inductive Op (R : Type) where
  | setFrequency (frequency : R)
  | setSystemLoss (systemLoss : R)
  | setMinLoss (minLoss : R)
  | setWeather (weatherval : Int)
  | doCalcRxPower (txPowerDbm distance : R)

/-- The stage after one operation. `DoCalcRxPower` is a `const` member function: it has no
assignment to a data member, so the stage after it is the stage before it. -/
def Op.run {R : Type} [LinearOrderedField R] (self : WeatheredFriisPropagationLossModel R) :
    Op R → WeatheredFriisPropagationLossModel R
  | .setFrequency f => SetFrequency self f
  | .setSystemLoss l => SetSystemLoss self l
  | .setMinLoss m => SetMinLoss self m
  | .setWeather v => SetWeather self v
  | .doCalcRxPower _ _ => self

/-- The stage after a sequence of `SetWeather` calls, applied from the head of the list. -/
def SetWeatherSeq {R : Type} (self : WeatheredFriisPropagationLossModel R) :
    List Int → WeatheredFriisPropagationLossModel R
  | [] => self
  | v :: vs => SetWeatherSeq (SetWeather self v) vs

/-- The ways a call of `DoCalcRxPower` can end. -/
inductive CallEnd where
  | returned
  | invariantViolation
  | endOfBody
  deriving DecidableEq

/-- The way a `DoCalcRxPower` call ends. The body (lines 197-217) has four `return`
statements and no `throw`, assertion or fatal-error call: a call that reaches no `return` runs
to the closing brace of the function. -/
def RxResult.callEnd {R : Type} (r : RxResult R) : CallEnd :=
  match r.ret with
  | some _ => CallEnd.returned
  | none => CallEnd.endOfBody

/-- The initial values of the four attributes registered by `GetTypeId` (lines 81-103). -/
structure AttributeValues (R : Type) where
  Frequency : R
  SystemLoss : R
  MinLoss : R
  WeatherVal : Int

/-- The values `DoubleValue(5.150e9)`, `DoubleValue(1.0)`, `DoubleValue(0.0)` and
`IntegerValue(0)` of `GetTypeId`. -/
def GetTypeId_initial {R : Type} [LinearOrderedField R] : AttributeValues R :=
  { Frequency := 5150000000, SystemLoss := 1, MinLoss := 0, WeatherVal := 0 }

/-- The checker `MakeDoubleChecker<double>()` of the attributes Frequency, SystemLoss and
MinLoss (lines 87, 92, 98): it is built without bounds and accepts every value. -/
def DoubleChecker {R : Type} (_v : R) : Bool := true

/-- The checker `MakeIntegerChecker<int8_t>()` of the attribute WeatherVal (line 103): it is
built without bounds and accepts the values of `int8_t`. -/
def WeatherValChecker (v : Int) : Bool := decide (-128 ≤ v ∧ v ≤ 127)

/-- Setting the attribute Frequency: the accessor is `SetFrequency` (line 85). -/
def SetAttribute_Frequency {R : Type} [LinearOrderedField R]
    (self : WeatheredFriisPropagationLossModel R) (v : R) :
    Option (WeatheredFriisPropagationLossModel R) :=
  if DoubleChecker v then some (SetFrequency self v) else none

/-- Setting the attribute SystemLoss: the accessor is the member `m_systemLoss` (line 91). -/
def SetAttribute_SystemLoss {R : Type} (self : WeatheredFriisPropagationLossModel R) (v : R) :
    Option (WeatheredFriisPropagationLossModel R) :=
  if DoubleChecker v then some { self with m_systemLoss := v } else none

/-- Setting the attribute MinLoss: the accessor is `SetMinLoss` (line 96). -/
def SetAttribute_MinLoss {R : Type} (self : WeatheredFriisPropagationLossModel R) (v : R) :
    Option (WeatheredFriisPropagationLossModel R) :=
  if DoubleChecker v then some (SetMinLoss self v) else none

/-- Setting the attribute WeatherVal: the accessor is the member `weather` (line 102), so the
guard of `SetWeather` is not on this path. -/
def SetAttribute_WeatherVal {R : Type} (self : WeatheredFriisPropagationLossModel R) (v : Int) :
    Option (WeatheredFriisPropagationLossModel R) :=
  if WeatherValChecker v then some { self with weather := v } else none

/-- Construction of a stage from the registered attributes alone: the constructor (lines
107-109) has an empty body, so the members start at whatever `self` holds, and each attribute
is then set to its initial value, in the order of registration. -/
def ConstructSelf {R : Type} [LinearOrderedField R] (self : WeatheredFriisPropagationLossModel R) :
    Option (WeatheredFriisPropagationLossModel R) :=
  (SetAttribute_Frequency self GetTypeId_initial.Frequency).bind fun s1 =>
  (SetAttribute_SystemLoss s1 GetTypeId_initial.SystemLoss).bind fun s2 =>
  (SetAttribute_MinLoss s2 GetTypeId_initial.MinLoss).bind fun s3 =>
  SetAttribute_WeatherVal s3 (GetTypeId_initial : AttributeValues R).WeatherVal

/-- Modelled from the spec: the LossStage contract of §4.1,
`evaluate(txPowerDbm, posA, posB) -> rxPowerDbm`, over positions of type `P`. What is missing
from the sources is the ns-3 base class `PropagationLossModel`. A stage that reaches no
`return` has the result `none`. -/
structure LossStage (R P : Type) where
  evaluate : R → P → P → Option R

/-- Modelled from the spec: the LossPipeline of §3 and §4.3, an ordered finite sequence of
stages. What is missing from the sources is the chain of ns-3 loss models that
`AddPropagationLoss` builds and `GetNext` walks (final_rain.cc, lines 106-107 and 226-244). -/
structure LossPipeline (R P : Type) where
  stages : List (LossStage R P)

/-- Modelled from the spec: a pipeline without stages. -/
def LossPipeline.nil {R P : Type} : LossPipeline R P := { stages := [] }

/-- Modelled from the spec: `append(stage)` of §4.3 adds a stage to the end. -/
def LossPipeline.append {R P : Type} (p : LossPipeline R P) (st : LossStage R P) :
    LossPipeline R P :=
  { stages := p.stages ++ [st] }

/-- Modelled from the spec: the cascade of §4.3 over a list of stages; the output of a stage is
the transmit power of the next one, and an empty list returns the input unchanged. -/
def evaluateStages {R P : Type} : List (LossStage R P) → R → P → P → Option R
  | [], tx, _, _ => some tx
  | st :: rest, tx, a, b =>
    match st.evaluate tx a b with
    | some rx => evaluateStages rest rx a b
    | none => none

/-- Modelled from the spec: `evaluate(txPowerDbm, posA, posB)` of the LossPipeline (§4.3). -/
def LossPipeline.evaluate {R P : Type} (p : LossPipeline R P) (tx : R) (a b : P) : Option R :=
  evaluateStages p.stages tx a b

/-- The weathered Friis model as a stage: its evaluation is `DoCalcRxPower` at the distance
`a->GetDistanceFrom(b)` (line 197), with `GetDistanceFrom` of the mobility models an argument. -/
def WeatheredFreeSpaceStage {R P : Type} [LinearOrderedField R] (log10 : R → R) (M_PI : R)
    (GetDistanceFrom : P → P → R) (self : WeatheredFriisPropagationLossModel R) : LossStage R P :=
  { evaluate := fun tx a b => (DoCalcRxPower log10 M_PI self tx (GetDistanceFrom a b)).ret }

/-- The loss chain of the rain experiment (final_rain.cc, lines 106-107): the default loss
model of the channel helper, an argument here, and then the weathered Friis model added by
`AddPropagationLoss`. -/
def rainPipeline {R P : Type} [LinearOrderedField R] (log10 : R → R) (M_PI : R)
    (GetDistanceFrom : P → P → R) (dflt : LossStage R P)
    (friis : WeatheredFriisPropagationLossModel R) : LossPipeline R P :=
  (LossPipeline.nil.append dflt).append (WeatheredFreeSpaceStage log10 M_PI GetDistanceFrom friis)

/-- The seven `Simulator::Schedule(Seconds(t), &SetRainning, friis, w)` calls of `main`
(final_rain.cc, lines 251-257), as pairs of the time in seconds and the weather value. -/
def rainSchedule : List (Nat × Int) :=
  [(3, 0), (6, 1), (9, 2), (12, 1), (15, 2), (18, 1), (21, 0)]

/-- Modelled from the spec: the external scheduler of §5 delivers the scheduled calls in the
order of their virtual time (calls of equal time in the order they were scheduled), and a call
scheduled at time T has run for every evaluation at a time ≥ T. What is missing from the
sources is the ns-3 `Simulator`. The result is the stage at virtual time `t` (seconds). -/
def runSchedule {R : Type} (friis : WeatheredFriisPropagationLossModel R)
    (events : List (Nat × Int)) (t : ℚ) : WeatheredFriisPropagationLossModel R :=
  ((events.insertionSort (fun e f => e.1 ≤ f.1)).filter (fun e => decide ((e.1 : ℚ) ≤ t))).foldl
    (fun st e => (SetRainning st e.2).2) friis

/-- The stage of the rain experiment at virtual time `t`: `friis->SetWeather(0)` (line 245)
and then the scheduled calls (lines 251-257). -/
def rainExperimentStage {R : Type} (friis : WeatheredFriisPropagationLossModel R) (t : ℚ) :
    WeatheredFriisPropagationLossModel R :=
  runSchedule (SetWeather friis 0) rainSchedule t

/-- The ns-3 `Vector` as the tunnel experiment uses it: the three coordinates of a position. -/
structure Vector (R : Type) where
  x : R
  y : R
  z : R

/-- Function `EuclideanDistance` of final_tunnel.cc (lines 55-60), with `std::sqrt` as the
argument `sqrt`. -/
def EuclideanDistance {R : Type} [LinearOrderedField R] (sqrt : R → R) (v1 v2 : Vector R) : R :=
  let component1 := v1.x - v2.x
  let component2 := v1.y - v2.y
  let component3 := v1.z - v2.z
  sqrt (component1 * component1 + component2 * component2 + component3 * component3)

/-! ## Specification-side definitions -/

/-- The weather offset in dB as the specification gives it: Clear (0) is 0, Rain (1) is 5,
Snow (2) is 10. -/
def weatherOffset {R : Type} [LinearOrderedField R] (w : Int) : R :=
  if w = 0 then 0 else if w = 1 then 5 else 10

/-- The weather value is one of Clear (0), Rain (1), Snow (2). -/
def validWeather (w : Int) : Prop := w = 0 ∨ w = 1 ∨ w = 2

instance (w : Int) : Decidable (validWeather w) := by
  unfold validWeather; infer_instance

/-- The geometric loss of the specification,
`lossDb = −10·log10(wavelength² / (16·π²·d²·systemLoss))`. -/
def specLossDb {R : Type} [LinearOrderedField R] (log10 : R → R) (pi : R)
    (wavelength d systemLoss : R) : R :=
  -10 * log10 (wavelength ^ 2 / (16 * pi ^ 2 * d ^ 2 * systemLoss))

/-- The value of the latest event with time ≤ t, and `initial` when there is none. -/
def latestEventValue (events : List (Nat × Int)) (initial : Int) (t : ℚ) : Int :=
  match (events.filter (fun e => decide ((e.1 : ℚ) ≤ t))).getLast? with
  | some e => e.2
  | none => initial

/-! ## Helper lemmas -/

theorem std_max_eq_max {R : Type} [LinearOrderedField R] (a b : R) : std_max a b = max a b := by
  unfold std_max
  split_ifs with h
  · exact (max_eq_right h.le).symm
  · exact (max_eq_left (not_lt.mp h)).symm

theorem lossDb_eq_specLossDb {R : Type} [LinearOrderedField R] (log10 : R → R) (pi lam d L : R) :
    -10 * log10 (lam * lam / (16 * pi * pi * d * d * L)) = specLossDb log10 pi lam d L := by
  unfold specLossDb
  congr 2
  ring

/-- The returned value of `DoCalcRxPower` at a positive distance under a valid weather. -/
theorem DoCalcRxPower_ret_of_pos {R : Type} [LinearOrderedField R] (log10 : R → R) (pi : R)
    (s : WeatheredFriisPropagationLossModel R) (tx d : R)
    (hw : validWeather s.weather) (hd : 0 < d) :
    (DoCalcRxPower log10 pi s tx d).ret
      = some (tx - max (specLossDb log10 pi s.m_lambda d s.m_systemLoss) s.m_minLoss
          - weatherOffset s.weather) := by
  have hnd : ¬ d ≤ 0 := not_le.mpr hd
  have hloss := lossDb_eq_specLossDb log10 pi s.m_lambda d s.m_systemLoss
  rcases hw with h | h | h <;>
    simp only [DoCalcRxPower, hnd, h, if_false, weatherOffset, std_max_eq_max, hloss] <;>
    norm_num

/-- The returned value of `DoCalcRxPower` at a distance that is not positive. -/
theorem DoCalcRxPower_ret_of_nonpos {R : Type} [LinearOrderedField R] (log10 : R → R) (pi : R)
    (s : WeatheredFriisPropagationLossModel R) (tx d : R) (hd : d ≤ 0) :
    (DoCalcRxPower log10 pi s tx d).ret = some (tx - s.m_minLoss) := by
  simp [DoCalcRxPower, hd]

theorem weatherOffset_nonneg {R : Type} [LinearOrderedField R] (w : Int) :
    (0 : R) ≤ weatherOffset w := by
  unfold weatherOffset
  split_ifs <;> norm_num

/-- The argument of the logarithm is positive when the wavelength is not zero, the distance is
positive and the system loss is positive. -/
theorem friis_ratio_pos (lam d L : ℝ) (hlam : lam ≠ 0) (hd : 0 < d) (hL : 0 < L) :
    0 < lam ^ 2 / (16 * Real.pi ^ 2 * d ^ 2 * L) := by
  have h1 : 0 < lam ^ 2 := by positivity
  have h2 : 0 < 16 * Real.pi ^ 2 * d ^ 2 * L := by
    have := Real.pi_pos
    positivity
  exact div_pos h1 h2

/-- The geometric loss grows strictly with the distance. -/
theorem specLossDb_strictMono (lam L d1 d2 : ℝ) (hlam : lam ≠ 0) (hL : 0 < L)
    (h1 : 0 < d1) (h12 : d1 < d2) :
    specLossDb (Real.logb 10) Real.pi lam d1 L < specLossDb (Real.logb 10) Real.pi lam d2 L := by
  unfold specLossDb
  have hpi := Real.pi_pos
  have hnum : 0 < lam ^ 2 := by positivity
  have hd2 : 0 < d2 := h1.trans h12
  have hden1 : 0 < 16 * Real.pi ^ 2 * d1 ^ 2 * L := by positivity
  have hsq : d1 ^ 2 < d2 ^ 2 := by nlinarith
  have hk : 0 < 16 * Real.pi ^ 2 := by positivity
  have hden : 16 * Real.pi ^ 2 * d1 ^ 2 * L < 16 * Real.pi ^ 2 * d2 ^ 2 * L :=
    mul_lt_mul_of_pos_right (mul_lt_mul_of_pos_left hsq hk) hL
  have harg : lam ^ 2 / (16 * Real.pi ^ 2 * d2 ^ 2 * L)
      < lam ^ 2 / (16 * Real.pi ^ 2 * d1 ^ 2 * L) :=
    div_lt_div_of_pos_left hnum hden1 hden
  have hlog := Real.logb_lt_logb (by norm_num : (1 : ℝ) < 10)
    (friis_ratio_pos lam d2 L hlam hd2 hL) harg
  linarith

/-- The total attenuation at a positive distance under a valid weather, and its lower bound. -/
theorem attenuation_of_pos {R : Type} [LinearOrderedField R] (log10 : R → R) (pi : R)
    (s : WeatheredFriisPropagationLossModel R) (tx d : R)
    (hw : validWeather s.weather) (hd : 0 < d) :
    ∃ r : R, (DoCalcRxPower log10 pi s tx d).ret = some r ∧
      tx - r = max (specLossDb log10 pi s.m_lambda d s.m_systemLoss) s.m_minLoss
        + weatherOffset s.weather ∧
      s.m_minLoss ≤ tx - r := by
  refine ⟨_, DoCalcRxPower_ret_of_pos log10 pi s tx d hw hd, by ring, ?_⟩
  have h1 := le_max_right (specLossDb log10 pi s.m_lambda d s.m_systemLoss) s.m_minLoss
  have h2 : (0 : R) ≤ weatherOffset s.weather := weatherOffset_nonneg s.weather
  linarith

/-- The weather after a run of `SetRainning` calls with valid values is the value of the last
call, and the weather before the run when there is no call. -/
theorem foldl_SetRainning_weather {R : Type} (l : List (Nat × Int))
    (hl : ∀ e ∈ l, validWeather e.2) (friis : WeatheredFriisPropagationLossModel R) :
    (l.foldl (fun st e => (SetRainning st e.2).2) friis).weather
      = (match l.getLast? with
         | some e => e.2
         | none => friis.weather) := by
  induction l generalizing friis with
  | nil => rfl
  | cons e tl ih =>
    have htl : ∀ x ∈ tl, validWeather x.2 := fun x hx => hl x (List.mem_cons_of_mem e hx)
    have he : validWeather e.2 := hl e (List.mem_cons_self e tl)
    have hset : (SetRainning friis e.2).2.weather = e.2 := by
      rcases he with h | h | h <;> rw [h] <;> simp [SetRainning, SetWeather, int8_cast]
    rw [List.foldl_cons, ih htl]
    cases tl with
    | nil => simpa using hset
    | cons x xs =>
      rw [List.getLast?_cons_cons]
      cases h : (x :: xs).getLast? with
      | none => simp at h
      | some y => rfl

theorem rainSchedule_sorted :
    rainSchedule.insertionSort (fun e f => e.1 ≤ f.1) = rainSchedule := by
  decide

theorem rainSchedule_valid : ∀ e ∈ rainSchedule, validWeather e.2 := by
  decide

/-- The weather of the rain experiment at time `t` is the value of the latest event. -/
theorem rainExperimentStage_weather {R : Type} (s0 : WeatheredFriisPropagationLossModel R)
    (t : ℚ) : (rainExperimentStage s0 t).weather = latestEventValue rainSchedule 0 t := by
  unfold rainExperimentStage runSchedule latestEventValue
  rw [rainSchedule_sorted, foldl_SetRainning_weather]
  · have h0 : (SetWeather s0 0).weather = 0 := by simp [SetWeather, int8_cast]
    rw [h0]
  · intro e he
    exact rainSchedule_valid e (List.mem_of_mem_filter he)

/-- What `DoCalcRxPower` writes: the far-field line exactly when the distance is below three
wavelengths. -/
theorem DoCalcRxPower_out {R : Type} [LinearOrderedField R] (log10 : R → R) (pi : R)
    (s : WeatheredFriisPropagationLossModel R) (tx d : R) :
    (DoCalcRxPower log10 pi s tx d).out
      = if d < 3 * s.m_lambda then [farFieldMsg] else [] := by
  unfold DoCalcRxPower
  simp only []
  split_ifs <;> rfl

/-- Doubling the distance adds `20·log10(2)` to the geometric loss. -/
theorem specLossDb_double (lam L d : ℝ) (hlam : lam ≠ 0) (hL : 0 < L) (hd : 0 < d) :
    specLossDb (Real.logb 10) Real.pi lam (2 * d) L
      = specLossDb (Real.logb 10) Real.pi lam d L + 20 * Real.logb 10 2 := by
  unfold specLossDb
  have hpi := Real.pi_pos
  have harg := friis_ratio_pos lam d L hlam hd hL
  have hsplit : lam ^ 2 / (16 * Real.pi ^ 2 * (2 * d) ^ 2 * L)
      = lam ^ 2 / (16 * Real.pi ^ 2 * d ^ 2 * L) / 4 := by
    field_simp
    ring
  have h4 : Real.logb 10 4 = 2 * Real.logb 10 2 := by
    have e : (4 : ℝ) = 2 * 2 := by norm_num
    rw [e, Real.logb_mul (by norm_num) (by norm_num)]
    ring
  rw [hsplit, Real.logb_div harg.ne.symm (by norm_num), h4]
  ring

/-! ## Claims -/

/-- C1: for a stage with wavelength ≠ 0 and systemLoss > 0, a weather in {0, 1, 2} and a
distance d > 0, `DoCalcRxPower` returns
`txPowerDbm − max(lossDb, minLoss) − offset(weather)` with
`lossDb = −10·log10(λ² / (16·π²·d²·L))` and offsets 0, 5, 10; the argument of the logarithm is
positive there, so the reading over the reals is the one of the code. -/
theorem C1_DoCalcRxPower_formula (s : WeatheredFriisPropagationLossModel ℝ) (tx d : ℝ)
    (hlam : s.m_lambda ≠ 0) (hL : 0 < s.m_systemLoss)
    (hw : s.weather = 0 ∨ s.weather = 1 ∨ s.weather = 2) (hd : 0 < d) :
    0 < s.m_lambda ^ 2 / (16 * Real.pi ^ 2 * d ^ 2 * s.m_systemLoss) ∧
    (DoCalcRxPower (Real.logb 10) Real.pi s tx d).ret
      = some (tx
          - max (-10 * Real.logb 10 (s.m_lambda ^ 2 / (16 * Real.pi ^ 2 * d ^ 2 * s.m_systemLoss)))
              s.m_minLoss
          - (if s.weather = 0 then 0 else if s.weather = 1 then 5 else 10)) := by
  refine ⟨friis_ratio_pos s.m_lambda d s.m_systemLoss hlam hd hL, ?_⟩
  · have h := DoCalcRxPower_ret_of_pos (Real.logb 10) Real.pi s tx d hw hd
    simpa [specLossDb, weatherOffset] using h

/-- Witness of C1: the 5.15 GHz stage in rain at 100 m. -/
theorem C1_DoCalcRxPower_formula_witness :
    0 < ((299792458 / 5150000000 : ℝ)) ^ 2 / (16 * Real.pi ^ 2 * (100 : ℝ) ^ 2 * 1) ∧
    (DoCalcRxPower (Real.logb 10) Real.pi
        (⟨299792458 / 5150000000, 5150000000, 1, 0, 1⟩ : WeatheredFriisPropagationLossModel ℝ)
        20 100).ret
      = some (20
          - max (-10 * Real.logb 10
              ((299792458 / 5150000000 : ℝ) ^ 2 / (16 * Real.pi ^ 2 * (100 : ℝ) ^ 2 * 1))) 0
          - (if (1 : Int) = 0 then 0 else if (1 : Int) = 1 then 5 else 10)) :=
  C1_DoCalcRxPower_formula ⟨299792458 / 5150000000, 5150000000, 1, 0, 1⟩ 20 100
    (by norm_num) (by norm_num) (Or.inr (Or.inl rfl)) (by norm_num)

/-- C2: for every stage, every txPowerDbm and every distance d ≤ 0, `DoCalcRxPower` returns
exactly `txPowerDbm − minLoss`, whatever the weather value is, and whatever the logarithm and
the constant π are (neither is used): no weather offset is subtracted. -/
theorem C2_DoCalcRxPower_degenerate {R : Type} [LinearOrderedField R] (log10 : R → R) (pi : R)
    (s : WeatheredFriisPropagationLossModel R) (tx d : R) (hd : d ≤ 0) :
    (DoCalcRxPower log10 pi s tx d).ret = some (tx - s.m_minLoss) :=
  DoCalcRxPower_ret_of_nonpos log10 pi s tx d hd

/-- Witness of C2: distance 0 with an out-of-range weather value 7. -/
theorem C2_DoCalcRxPower_degenerate_witness :
    (0 : ℝ) ≤ 0 ∧
    (DoCalcRxPower (Real.logb 10) Real.pi
        (⟨299792458 / 5150000000, 5150000000, 1, 3, 7⟩ : WeatheredFriisPropagationLossModel ℝ)
        20 0).ret = some (20 - 3) :=
  ⟨le_refl 0, C2_DoCalcRxPower_degenerate (Real.logb 10) Real.pi
    ⟨299792458 / 5150000000, 5150000000, 1, 3, 7⟩ 20 0 (le_refl 0)⟩

/-- C3: for every stage, txPowerDbm and distance d > 0, the received powers under the three
weathers satisfy rx(Clear) − rx(Rain) = 5 and rx(Clear) − rx(Snow) = 10, so the attenuation
`tx − rx` is least for Clear, then Rain, then Snow, and it is `max(lossDb, minLoss)` plus
0, 5, 10 dB. -/
theorem C3_weather_offsets {R : Type} [LinearOrderedField R] (log10 : R → R) (pi : R)
    (s : WeatheredFriisPropagationLossModel R) (tx d : R) (hd : 0 < d) :
    ∃ r0 r1 r2 : R,
      (DoCalcRxPower log10 pi { s with weather := 0 } tx d).ret = some r0 ∧
      (DoCalcRxPower log10 pi { s with weather := 1 } tx d).ret = some r1 ∧
      (DoCalcRxPower log10 pi { s with weather := 2 } tx d).ret = some r2 ∧
      r0 - r1 = 5 ∧ r0 - r2 = 10 ∧
      tx - r0 ≤ tx - r1 ∧ tx - r1 ≤ tx - r2 ∧
      tx - r0 = max (specLossDb log10 pi s.m_lambda d s.m_systemLoss) s.m_minLoss + 0 ∧
      tx - r1 = max (specLossDb log10 pi s.m_lambda d s.m_systemLoss) s.m_minLoss + 5 ∧
      tx - r2 = max (specLossDb log10 pi s.m_lambda d s.m_systemLoss) s.m_minLoss + 10 := by
  have h0 := DoCalcRxPower_ret_of_pos log10 pi { s with weather := 0 } tx d (Or.inl rfl) hd
  have h1 := DoCalcRxPower_ret_of_pos log10 pi { s with weather := 1 } tx d
    (Or.inr (Or.inl rfl)) hd
  have h2 := DoCalcRxPower_ret_of_pos log10 pi { s with weather := 2 } tx d
    (Or.inr (Or.inr rfl)) hd
  have e0 : (weatherOffset 0 : R) = 0 := by simp [weatherOffset]
  have e1 : (weatherOffset 1 : R) = 5 := by simp [weatherOffset]
  have e2 : (weatherOffset 2 : R) = 10 := by simp [weatherOffset]
  refine ⟨_, _, _, h0, h1, h2, ?_⟩
  simp only [e0, e1, e2]
  generalize max (specLossDb log10 pi s.m_lambda d s.m_systemLoss) s.m_minLoss = M
  refine ⟨by ring, by ring, by linarith, by linarith, by ring, by ring, by ring⟩

/-- Witness of C3: the 5.15 GHz stage at 100 m. -/
theorem C3_weather_offsets_witness :
    ∃ r0 r1 r2 : ℝ,
      (DoCalcRxPower (Real.logb 10) Real.pi
        { (⟨299792458 / 5150000000, 5150000000, 1, 0, 1⟩ : WeatheredFriisPropagationLossModel ℝ)
          with weather := 0 } 20 100).ret = some r0 ∧
      (DoCalcRxPower (Real.logb 10) Real.pi
        { (⟨299792458 / 5150000000, 5150000000, 1, 0, 1⟩ : WeatheredFriisPropagationLossModel ℝ)
          with weather := 1 } 20 100).ret = some r1 ∧
      (DoCalcRxPower (Real.logb 10) Real.pi
        { (⟨299792458 / 5150000000, 5150000000, 1, 0, 1⟩ : WeatheredFriisPropagationLossModel ℝ)
          with weather := 2 } 20 100).ret = some r2 ∧
      r0 - r1 = 5 ∧ r0 - r2 = 10 := by
  obtain ⟨r0, r1, r2, h0, h1, h2, h01, h02, _⟩ :=
    C3_weather_offsets (Real.logb 10) Real.pi
      (⟨299792458 / 5150000000, 5150000000, 1, 0, 1⟩ : WeatheredFriisPropagationLossModel ℝ)
      20 100 (by norm_num)
  exact ⟨r0, r1, r2, h0, h1, h2, h01, h02⟩

/-- C4 (evaluation of the code at the failing input): on a stage in Rain, `SetWeather(-1)`
passes the guard `weatherval < 3` and stores −1, which is none of 0, 1, 2; a `DoCalcRxPower`
call at distance 100 then reaches no `return`. -/
theorem C4_SetWeather_negative_is_stored :
    (SetWeather (⟨299792458 / 5150000000, 5150000000, 1, 0, 1⟩ :
        WeatheredFriisPropagationLossModel ℝ) (-1)).weather = -1 ∧
    ¬ validWeather (SetWeatherSeq (⟨299792458 / 5150000000, 5150000000, 1, 0, 1⟩ :
        WeatheredFriisPropagationLossModel ℝ) [-1]).weather ∧
    (DoCalcRxPower (Real.logb 10) Real.pi
      (SetWeather (⟨299792458 / 5150000000, 5150000000, 1, 0, 1⟩ :
        WeatheredFriisPropagationLossModel ℝ) (-1)) 20 100).ret = none := by
  refine ⟨by simp [SetWeather, int8_cast], ?_, ?_⟩
  · simp [SetWeatherSeq, SetWeather, int8_cast, validWeather]
  · norm_num [DoCalcRxPower, SetWeather, int8_cast]

/-- C5: for every prior stage and every w in {0, 1, 2}, `SetWeather(w)` sets the weather field
to w, and so does the callback `SetRainning(friis, w)`; the next `DoCalcRxPower` at any
distance d > 0 subtracts the offset of w; and of two successive valid calls the last wins. -/
theorem C5_SetWeather_valid {R : Type} [LinearOrderedField R] (log10 : R → R) (pi : R)
    (s : WeatheredFriisPropagationLossModel R) (w : Int) (hw : w = 0 ∨ w = 1 ∨ w = 2) :
    (SetWeather s w).weather = w ∧
    (SetRainning s w).2 = SetWeather s w ∧
    (SetRainning s w).2.weather = w ∧
    (∀ tx d : R, 0 < d →
      (DoCalcRxPower log10 pi (SetWeather s w) tx d).ret
        = some (tx - max (specLossDb log10 pi s.m_lambda d s.m_systemLoss) s.m_minLoss
            - weatherOffset w)) ∧
    (∀ w2 : Int, (w2 = 0 ∨ w2 = 1 ∨ w2 = 2) →
      (SetWeather (SetWeather s w) w2).weather = w2 ∧
      (SetRainning (SetRainning s w).2 w2).2.weather = w2) := by
  have key : ∀ (t : WeatheredFriisPropagationLossModel R) (u : Int),
      (u = 0 ∨ u = 1 ∨ u = 2) → SetWeather t u = { t with weather := u } := by
    intro t u hu
    rcases hu with h | h | h <;> subst h <;> simp [SetWeather, int8_cast]
  have cast : ∀ u : Int, (u = 0 ∨ u = 1 ∨ u = 2) → int8_cast u = u := by
    intro u hu
    rcases hu with h | h | h <;> subst h <;> decide
  have hr : ∀ (t : WeatheredFriisPropagationLossModel R) (u : Int),
      (u = 0 ∨ u = 1 ∨ u = 2) → (SetRainning t u).2 = SetWeather t u := by
    intro t u hu
    simp [SetRainning, cast u hu]
  refine ⟨by rw [key s w hw], hr s w hw, by rw [hr s w hw, key s w hw], ?_, ?_⟩
  · intro tx d hd
    have h := DoCalcRxPower_ret_of_pos log10 pi (SetWeather s w) tx d
      (by rw [key s w hw]; exact hw) hd
    rw [key s w hw] at h
    simpa [key s w hw] using h
  · intro w2 hw2
    refine ⟨by rw [key _ w2 hw2], ?_⟩
    rw [hr _ w2 hw2, key _ w2 hw2]

/-- Witness of C5: Snow set on a stage that was in Rain. -/
theorem C5_SetWeather_valid_witness :
    (SetWeather (⟨299792458 / 5150000000, 5150000000, 1, 0, 1⟩ :
        WeatheredFriisPropagationLossModel ℝ) 2).weather = 2 :=
  (C5_SetWeather_valid (Real.logb 10) Real.pi
    (⟨299792458 / 5150000000, 5150000000, 1, 0, 1⟩ : WeatheredFriisPropagationLossModel ℝ) 2
    (Or.inr (Or.inr rfl))).1

/-- C6: for every w in {0, 1, 2}, every integer v ≥ 3, every txPowerDbm and distance,
`DoCalcRxPower` after `SetWeather(w)` then `SetWeather(v)` gives what it gives after
`SetWeather(w)` alone; in particular `SetWeather(5)` after `SetWeather(1)` leaves the Rain
offset of 5 dB on the next evaluation at a distance d > 0. -/
theorem C6_invalid_weather_ignored {R : Type} [LinearOrderedField R] (log10 : R → R) (pi : R)
    (s : WeatheredFriisPropagationLossModel R) (w v : Int) (tx d : R)
    (hw : w = 0 ∨ w = 1 ∨ w = 2) (hv : 3 ≤ v) :
    DoCalcRxPower log10 pi (SetWeather (SetWeather s w) v) tx d
      = DoCalcRxPower log10 pi (SetWeather s w) tx d ∧
    (SetWeather (SetWeather s w) v).weather = w ∧
    (SetWeather (SetWeather s 1) 5).weather = 1 ∧
    (0 < d →
      (DoCalcRxPower log10 pi (SetWeather (SetWeather s 1) 5) tx d).ret
        = some (tx - max (specLossDb log10 pi s.m_lambda d s.m_systemLoss) s.m_minLoss - 5)) := by
  have hnv : ¬ v < 3 := not_lt.mpr hv
  have hww : (SetWeather (SetWeather s w) v).weather = w := by
    rcases hw with h | h | h <;> subst h <;> simp [SetWeather, hnv, int8_cast]
  refine ⟨by simp [SetWeather, hnv], hww, by simp [SetWeather, int8_cast], ?_⟩
  intro hd
  have h := DoCalcRxPower_ret_of_pos log10 pi (SetWeather (SetWeather s 1) 5) tx d
    (by simp [SetWeather, int8_cast, validWeather]) hd
  simpa [SetWeather, int8_cast, weatherOffset] using h

/-- Witness of C6: `SetWeather(5)` after `SetWeather(1)` at 100 m. -/
theorem C6_invalid_weather_ignored_witness :
    DoCalcRxPower (Real.logb 10) Real.pi
        (SetWeather (SetWeather (⟨299792458 / 5150000000, 5150000000, 1, 0, 0⟩ :
          WeatheredFriisPropagationLossModel ℝ) 1) 5) 20 100
      = DoCalcRxPower (Real.logb 10) Real.pi
        (SetWeather (⟨299792458 / 5150000000, 5150000000, 1, 0, 0⟩ :
          WeatheredFriisPropagationLossModel ℝ) 1) 20 100 :=
  (C6_invalid_weather_ignored (Real.logb 10) Real.pi
    (⟨299792458 / 5150000000, 5150000000, 1, 0, 0⟩ : WeatheredFriisPropagationLossModel ℝ)
    1 5 20 100 (Or.inr (Or.inl rfl)) (by decide)).1

/-- C7: for a stage with wavelength = 299792458 / frequency, frequency > 0 and
systemLoss ≥ 1, a weather in {0, 1, 2}, every txPowerDbm and all distances 0 ≤ d1 < d2,
`DoCalcRxPower` at d2 is at most `DoCalcRxPower` at d1, and it is strictly less when d1 > 0 and
the geometric loss at d2 exceeds minLoss. -/
theorem C7_monotone_in_distance (s : WeatheredFriisPropagationLossModel ℝ) (tx d1 d2 : ℝ)
    (hinv : s.m_lambda = 299792458 / s.m_frequency) (hf : 0 < s.m_frequency)
    (hL : 1 ≤ s.m_systemLoss) (hw : s.weather = 0 ∨ s.weather = 1 ∨ s.weather = 2)
    (h1 : 0 ≤ d1) (h12 : d1 < d2) :
    ∃ r1 r2 : ℝ,
      (DoCalcRxPower (Real.logb 10) Real.pi s tx d1).ret = some r1 ∧
      (DoCalcRxPower (Real.logb 10) Real.pi s tx d2).ret = some r2 ∧
      r2 ≤ r1 ∧
      (0 < d1 →
        s.m_minLoss
          < -10 * Real.logb 10 (s.m_lambda ^ 2 / (16 * Real.pi ^ 2 * d2 ^ 2 * s.m_systemLoss)) →
        r2 < r1) := by
  have hlam : s.m_lambda ≠ 0 := by
    rw [hinv]
    exact div_ne_zero (by norm_num) hf.ne.symm
  have hLpos : 0 < s.m_systemLoss := lt_of_lt_of_le one_pos hL
  have hd2 : 0 < d2 := lt_of_le_of_lt h1 h12
  have e2 := DoCalcRxPower_ret_of_pos (Real.logb 10) Real.pi s tx d2 hw hd2
  have hoff : (0 : ℝ) ≤ weatherOffset s.weather := weatherOffset_nonneg s.weather
  rcases h1.eq_or_lt with h0 | hpos
  · have e1 := DoCalcRxPower_ret_of_nonpos (Real.logb 10) Real.pi s tx d1 (le_of_eq h0.symm)
    refine ⟨_, _, e1, e2, ?_, ?_⟩
    · have := le_max_right (specLossDb (Real.logb 10) Real.pi s.m_lambda d2 s.m_systemLoss)
        s.m_minLoss
      linarith
    · intro hd1
      exact absurd h0 hd1.ne
  · have e1 := DoCalcRxPower_ret_of_pos (Real.logb 10) Real.pi s tx d1 hw hpos
    have hmono := specLossDb_strictMono s.m_lambda s.m_systemLoss d1 d2 hlam hLpos hpos h12
    refine ⟨_, _, e1, e2, ?_, ?_⟩
    · have := max_le_max hmono.le (le_refl s.m_minLoss)
      linarith
    · intro _ hgt
      have hgt2 : s.m_minLoss < specLossDb (Real.logb 10) Real.pi s.m_lambda d2 s.m_systemLoss :=
        hgt
      have hmax2 : max (specLossDb (Real.logb 10) Real.pi s.m_lambda d2 s.m_systemLoss)
          s.m_minLoss = specLossDb (Real.logb 10) Real.pi s.m_lambda d2 s.m_systemLoss :=
        max_eq_left hgt2.le
      have hmax1 : max (specLossDb (Real.logb 10) Real.pi s.m_lambda d1 s.m_systemLoss)
          s.m_minLoss < specLossDb (Real.logb 10) Real.pi s.m_lambda d2 s.m_systemLoss :=
        max_lt hmono hgt2
      rw [hmax2]
      linarith

/-- Witness of C7: the 5.15 GHz stage in rain, at 100 m and at 200 m. -/
theorem C7_monotone_in_distance_witness :
    ∃ r1 r2 : ℝ,
      (DoCalcRxPower (Real.logb 10) Real.pi
        (⟨299792458 / 5150000000, 5150000000, 1, 0, 1⟩ : WeatheredFriisPropagationLossModel ℝ)
        20 100).ret = some r1 ∧
      (DoCalcRxPower (Real.logb 10) Real.pi
        (⟨299792458 / 5150000000, 5150000000, 1, 0, 1⟩ : WeatheredFriisPropagationLossModel ℝ)
        20 200).ret = some r2 ∧
      r2 ≤ r1 := by
  obtain ⟨r1, r2, h1, h2, h3, _⟩ :=
    C7_monotone_in_distance
      (⟨299792458 / 5150000000, 5150000000, 1, 0, 1⟩ : WeatheredFriisPropagationLossModel ℝ)
      20 100 200 rfl (by norm_num) (le_refl 1) (Or.inr (Or.inl rfl)) (by norm_num) (by norm_num)
  exact ⟨r1, r2, h1, h2, h3⟩

/-- C8: for every frequency f ≠ 0, after `SetFrequency(f)` the stage has `GetFrequency() = f`
and wavelength = 299792458 / f; every other operation (`SetSystemLoss`, `SetMinLoss`,
`SetWeather`, `DoCalcRxPower`) leaves frequency and wavelength as they were, and so preserves
the relation wavelength = 299792458 / frequency. -/
theorem C8_wavelength_invariant {R : Type} [LinearOrderedField R]
    (s : WeatheredFriisPropagationLossModel R) (f : R) (hf : f ≠ 0) :
    GetFrequency (SetFrequency s f) = f ∧
    (SetFrequency s f).m_lambda = 299792458 / f ∧
    (SetFrequency s f).m_lambda * f = 299792458 ∧
    (∀ (t : WeatheredFriisPropagationLossModel R) (op : Op R),
      (∀ g : R, op ≠ Op.setFrequency g) →
        (Op.run t op).m_frequency = t.m_frequency ∧ (Op.run t op).m_lambda = t.m_lambda) ∧
    (∀ (t : WeatheredFriisPropagationLossModel R) (op : Op R),
      (∀ g : R, op ≠ Op.setFrequency g) →
        t.m_lambda = 299792458 / t.m_frequency →
        (Op.run t op).m_lambda = 299792458 / (Op.run t op).m_frequency) := by
  have frame : ∀ (t : WeatheredFriisPropagationLossModel R) (op : Op R),
      (∀ g : R, op ≠ Op.setFrequency g) →
        (Op.run t op).m_frequency = t.m_frequency ∧ (Op.run t op).m_lambda = t.m_lambda := by
    intro t op hop
    cases op with
    | setFrequency g => exact absurd rfl (hop g)
    | setSystemLoss l => exact ⟨rfl, rfl⟩
    | setMinLoss m => exact ⟨rfl, rfl⟩
    | setWeather v =>
      simp only [Op.run, SetWeather]
      split_ifs <;> exact ⟨rfl, rfl⟩
    | doCalcRxPower tx d => exact ⟨rfl, rfl⟩
  refine ⟨rfl, rfl, ?_, frame, ?_⟩
  · show C / f * f = 299792458
    rw [div_mul_cancel₀ _ hf]
    rfl
  · intro t op hop ht
    rw [(frame t op hop).1, (frame t op hop).2, ht]

/-- Witness of C8: the default frequency 5.15 GHz set on a stage. -/
theorem C8_wavelength_invariant_witness :
    GetFrequency (SetFrequency
      (⟨0, 0, 1, 0, 0⟩ : WeatheredFriisPropagationLossModel ℝ) 5150000000) = 5150000000 ∧
    (SetFrequency (⟨0, 0, 1, 0, 0⟩ : WeatheredFriisPropagationLossModel ℝ) 5150000000).m_lambda
      = 299792458 / 5150000000 :=
  ⟨(C8_wavelength_invariant (⟨0, 0, 1, 0, 0⟩ : WeatheredFriisPropagationLossModel ℝ)
      5150000000 (by norm_num)).1,
   (C8_wavelength_invariant (⟨0, 0, 1, 0, 0⟩ : WeatheredFriisPropagationLossModel ℝ)
      5150000000 (by norm_num)).2.1⟩

/-- C9: with frequency 5.15 GHz (wavelength 299792458 / 5150000000), systemLoss 1, minLoss 0,
weather Clear and distance 100 m, `DoCalcRxPower` returns `txPowerDbm − lossDb` with
`lossDb = −10·log10(λ² / (16·π²·100²))` for every txPowerDbm; lossDb is positive, so the
floor of 0 does not replace it, and nothing is subtracted for the weather. -/
theorem C9_concrete_scenario (s : WeatheredFriisPropagationLossModel ℝ) (tx : ℝ)
    (hfreq : s.m_frequency = 5150000000) (hlam : s.m_lambda = 299792458 / s.m_frequency)
    (hL : s.m_systemLoss = 1) (hmin : s.m_minLoss = 0) (hw : s.weather = 0) :
    0 < -10 * Real.logb 10
          ((299792458 / 5150000000 : ℝ) ^ 2 / (16 * Real.pi ^ 2 * (100 : ℝ) ^ 2)) ∧
    (DoCalcRxPower (Real.logb 10) Real.pi s tx 100).ret
      = some (tx - -10 * Real.logb 10
          ((299792458 / 5150000000 : ℝ) ^ 2 / (16 * Real.pi ^ 2 * (100 : ℝ) ^ 2))) := by
  have hpi : 3 < Real.pi := Real.pi_gt_three
  have hpi2 : 9 < Real.pi ^ 2 := by nlinarith
  have hden : 0 < 16 * Real.pi ^ 2 * (100 : ℝ) ^ 2 := by positivity
  have harg0 : 0 < (299792458 / 5150000000 : ℝ) ^ 2 / (16 * Real.pi ^ 2 * (100 : ℝ) ^ 2) :=
    div_pos (by norm_num) hden
  have harg1 : (299792458 / 5150000000 : ℝ) ^ 2 / (16 * Real.pi ^ 2 * (100 : ℝ) ^ 2) < 1 := by
    rw [div_lt_one hden]
    have h : (299792458 / 5150000000 : ℝ) ^ 2 < 1 := by norm_num
    nlinarith
  have hlog := Real.logb_neg (by norm_num : (1 : ℝ) < 10) harg0 harg1
  have hloss : 0 < -10 * Real.logb 10
      ((299792458 / 5150000000 : ℝ) ^ 2 / (16 * Real.pi ^ 2 * (100 : ℝ) ^ 2)) := by linarith
  refine ⟨hloss, ?_⟩
  have h := DoCalcRxPower_ret_of_pos (Real.logb 10) Real.pi s tx 100 (Or.inl hw) (by norm_num)
  rw [h, hw, hmin, hL, hlam, hfreq]
  simp only [specLossDb, weatherOffset, mul_one, if_true, sub_zero]
  rw [max_eq_left hloss.le]

/-- Witness of C9: the stage built by the setters from the defaults of the attributes. -/
theorem C9_concrete_scenario_witness :
    (DoCalcRxPower (Real.logb 10) Real.pi
        (SetWeather (SetMinLoss (SetSystemLoss (SetFrequency
          (⟨0, 0, 0, 0, 0⟩ : WeatheredFriisPropagationLossModel ℝ) 5150000000) 1) 0) 0)
        20 100).ret
      = some (20 - -10 * Real.logb 10
          ((299792458 / 5150000000 : ℝ) ^ 2 / (16 * Real.pi ^ 2 * (100 : ℝ) ^ 2))) :=
  (C9_concrete_scenario
    (SetWeather (SetMinLoss (SetSystemLoss (SetFrequency
      (⟨0, 0, 0, 0, 0⟩ : WeatheredFriisPropagationLossModel ℝ) 5150000000) 1) 0) 0)
    20 rfl rfl rfl rfl (by decide)).2

/-- C10 as stated fails: after `SetFrequency(5.15×10⁹)` the wavelength is not within 0.000005
of 0.05825. -/
theorem C10_wavelength_not_0_05825 :
    ¬ (|(SetFrequency (⟨0, 0, 1, 0, 0⟩ : WeatheredFriisPropagationLossModel ℝ)
          5150000000).m_lambda - 0.05825| < 0.000005) := by
  have e : (SetFrequency (⟨0, 0, 1, 0, 0⟩ : WeatheredFriisPropagationLossModel ℝ)
      5150000000).m_lambda = 299792458 / 5150000000 := rfl
  rw [e, abs_lt]
  norm_num

/-- C10 (amended): after `SetFrequency(5.15×10⁹)` the wavelength is
299792458 / 5150000000 m, which is 0.05821 m when rounded to five decimal places, and
which differs from 0.05825 by less than 0.00004 and by more than 0.00003. -/
theorem C10_wavelength_value (s : WeatheredFriisPropagationLossModel ℝ) :
    (SetFrequency s 5150000000).m_lambda = 299792458 / 5150000000 ∧
    |(SetFrequency s 5150000000).m_lambda - 0.05821| < 0.000005 ∧
    |(SetFrequency s 5150000000).m_lambda - 0.05825| < 0.00004 ∧
    0.00003 < |(SetFrequency s 5150000000).m_lambda - 0.05825| := by
  have e : (SetFrequency s 5150000000).m_lambda = 299792458 / 5150000000 := rfl
  rw [e]
  refine ⟨rfl, ?_, ?_, ?_⟩
  · rw [abs_lt]; norm_num
  · rw [abs_lt]; norm_num
  · rw [lt_abs]; right; norm_num

/-- C11: for every pipeline made of two loss stages A then B, every txPowerDbm and every pair
of positions, the evaluation of the pipeline is B evaluated on the output of A at the same
positions; this holds for the chain of the rain experiment, whose second stage is the
weathered Friis model; and appending a stage to any pipeline feeds it the output of that
pipeline. -/
theorem C11_pipeline_cascade {R P : Type} [LinearOrderedField R] (log10 : R → R) (pi : R)
    (GetDistanceFrom : P → P → R) (A B : LossStage R P)
    (friis : WeatheredFriisPropagationLossModel R) (tx : R) (posA posB : P) :
    ((LossPipeline.nil.append A).append B).evaluate tx posA posB
      = (A.evaluate tx posA posB).bind (fun rx => B.evaluate rx posA posB) ∧
    (∀ rxA : R, A.evaluate tx posA posB = some rxA →
      ((LossPipeline.nil.append A).append B).evaluate tx posA posB
        = B.evaluate rxA posA posB) ∧
    (∀ rxA : R, A.evaluate tx posA posB = some rxA →
      (rainPipeline log10 pi GetDistanceFrom A friis).evaluate tx posA posB
        = (DoCalcRxPower log10 pi friis rxA (GetDistanceFrom posA posB)).ret) ∧
    (∀ (p : LossPipeline R P) (st : LossStage R P),
      (p.append st).evaluate tx posA posB
        = (p.evaluate tx posA posB).bind (fun rx => st.evaluate rx posA posB)) ∧
    (LossPipeline.nil : LossPipeline R P).evaluate tx posA posB = some tx := by
  have two : ∀ X Y : LossStage R P,
      ((LossPipeline.nil.append X).append Y).evaluate tx posA posB
        = (X.evaluate tx posA posB).bind (fun rx => Y.evaluate rx posA posB) := by
    intro X Y
    simp only [LossPipeline.evaluate, LossPipeline.append, LossPipeline.nil, List.nil_append,
      List.cons_append, evaluateStages]
    cases hX : X.evaluate tx posA posB with
    | none => rfl
    | some rx =>
      simp only [Option.bind]
      cases Y.evaluate rx posA posB <;> rfl
  have app : ∀ (l : List (LossStage R P)) (st : LossStage R P) (t : R),
      evaluateStages (l ++ [st]) t posA posB
        = (evaluateStages l t posA posB).bind (fun rx => st.evaluate rx posA posB) := by
    intro l st
    induction l with
    | nil =>
      intro t
      simp only [List.nil_append, evaluateStages, Option.bind]
      cases st.evaluate t posA posB <;> rfl
    | cons hd tl ih =>
      intro t
      simp only [List.cons_append, evaluateStages]
      cases hd.evaluate t posA posB with
      | none => rfl
      | some rx => exact ih rx
  refine ⟨two A B, ?_, ?_, ?_, rfl⟩
  · intro rxA hA
    rw [two A B, hA]
    rfl
  · intro rxA hA
    unfold rainPipeline
    rw [two, hA]
    rfl
  · intro p st
    exact app p.stages st tx

/-- Witness of C11: a first stage that takes away 3 dB, then the 5.15 GHz stage in rain, with
positions on a line. -/
theorem C11_pipeline_cascade_witness :
    (rainPipeline (Real.logb 10) Real.pi (fun x y : ℝ => |x - y|)
        { evaluate := fun tx _ _ => some (tx - 3) }
        (⟨299792458 / 5150000000, 5150000000, 1, 0, 1⟩ :
          WeatheredFriisPropagationLossModel ℝ)).evaluate 20 0 100
      = (DoCalcRxPower (Real.logb 10) Real.pi
          (⟨299792458 / 5150000000, 5150000000, 1, 0, 1⟩ : WeatheredFriisPropagationLossModel ℝ)
          (20 - 3) (|(0 : ℝ) - 100|)).ret :=
  (C11_pipeline_cascade (Real.logb 10) Real.pi (fun x y : ℝ => |x - y|)
    { evaluate := fun tx _ _ => some (tx - 3) } { evaluate := fun tx _ _ => some tx }
    (⟨299792458 / 5150000000, 5150000000, 1, 0, 1⟩ : WeatheredFriisPropagationLossModel ℝ)
    20 0 100).2.2.1 (20 - 3) rfl

/-- C12: for a stage with wavelength > 0, a weather in {0, 1, 2} and a distance d with
0 < d < 3·wavelength, `DoCalcRxPower` writes the near-field line and returns
`txPowerDbm − max(lossDb, minLoss) − offset`; at a distance of at least three wavelengths it
writes nothing and returns the same expression, so the line does not alter the value. -/
theorem C12_near_field_diagnostic {R : Type} [LinearOrderedField R] (log10 : R → R) (pi : R)
    (s : WeatheredFriisPropagationLossModel R) (tx d : R)
    (hlam : 0 < s.m_lambda) (hw : s.weather = 0 ∨ s.weather = 1 ∨ s.weather = 2)
    (hd : 0 < d) (hnear : d < 3 * s.m_lambda) :
    (DoCalcRxPower log10 pi s tx d).out = [farFieldMsg] ∧
    (DoCalcRxPower log10 pi s tx d).ret
      = some (tx - max (specLossDb log10 pi s.m_lambda d s.m_systemLoss) s.m_minLoss
          - weatherOffset s.weather) ∧
    (∀ e : R, 3 * s.m_lambda ≤ e →
      (DoCalcRxPower log10 pi s tx e).out = [] ∧
      (DoCalcRxPower log10 pi s tx e).ret
        = some (tx - max (specLossDb log10 pi s.m_lambda e s.m_systemLoss) s.m_minLoss
            - weatherOffset s.weather)) := by
  have hout : ∀ e : R, (DoCalcRxPower log10 pi s tx e).out
      = if e < 3 * s.m_lambda then [farFieldMsg] else [] := by
    intro e
    unfold DoCalcRxPower
    simp only []
    split_ifs <;> rfl
  refine ⟨by rw [hout, if_pos hnear], DoCalcRxPower_ret_of_pos log10 pi s tx d hw hd, ?_⟩
  intro e he
  have hepos : 0 < e := lt_of_lt_of_le (by linarith) he
  exact ⟨by rw [hout, if_neg (not_lt.mpr he)], DoCalcRxPower_ret_of_pos log10 pi s tx e hw hepos⟩

/-- Witness of C12: the 5.15 GHz stage in rain at 10 cm, inside three wavelengths. -/
theorem C12_near_field_diagnostic_witness :
    (DoCalcRxPower (Real.logb 10) Real.pi
        (⟨299792458 / 5150000000, 5150000000, 1, 0, 1⟩ : WeatheredFriisPropagationLossModel ℝ)
        20 (1 / 10)).out = [farFieldMsg] :=
  (C12_near_field_diagnostic (Real.logb 10) Real.pi
    (⟨299792458 / 5150000000, 5150000000, 1, 0, 1⟩ : WeatheredFriisPropagationLossModel ℝ)
    20 (1 / 10) (by norm_num) (Or.inr (Or.inl rfl)) (by norm_num) (by norm_num)).1

/-- C13: a stage configured only from the registered attribute defaults has
Frequency = 5.15×10⁹ (and wavelength 299792458 / 5.15×10⁹ through `SetFrequency`),
SystemLoss = 1, MinLoss = 0 and WeatherVal = 0, whatever the members held before. -/
theorem C13_attribute_defaults {R : Type} [LinearOrderedField R]
    (s0 : WeatheredFriisPropagationLossModel R) :
    ConstructSelf s0
      = some { m_lambda := 299792458 / 5150000000, m_frequency := 5150000000,
               m_systemLoss := 1, m_minLoss := 0, weather := 0 } ∧
    (∀ s : WeatheredFriisPropagationLossModel R, ConstructSelf s0 = some s →
      GetFrequency s = 5150000000 ∧ s.m_lambda = 299792458 / 5150000000 ∧
      GetSystemLoss s = 1 ∧ GetMinLoss s = 0 ∧ s.weather = 0) := by
  have h : ConstructSelf s0
      = some { m_lambda := 299792458 / 5150000000, m_frequency := 5150000000,
               m_systemLoss := 1, m_minLoss := 0, weather := 0 } := by
    simp [ConstructSelf, SetAttribute_Frequency, SetAttribute_SystemLoss, SetAttribute_MinLoss,
      SetAttribute_WeatherVal, DoubleChecker, WeatherValChecker, GetTypeId_initial,
      SetFrequency, SetMinLoss, C]
  refine ⟨h, ?_⟩
  intro s hs
  rw [h] at hs
  cases hs
  exact ⟨rfl, rfl, rfl, rfl, rfl⟩

/-- C14: each mutator changes only its own field: `SetWeather` leaves frequency, wavelength,
systemLoss and minLoss unchanged; `SetMinLoss` changes only minLoss; `SetSystemLoss` changes
only systemLoss; `SetFrequency` changes only frequency and wavelength, and never the
weather. -/
theorem C14_mutator_frames {R : Type} [LinearOrderedField R]
    (s : WeatheredFriisPropagationLossModel R) (v : Int) (x : R) :
    ((SetWeather s v).m_frequency = s.m_frequency ∧ (SetWeather s v).m_lambda = s.m_lambda ∧
      (SetWeather s v).m_systemLoss = s.m_systemLoss ∧
      (SetWeather s v).m_minLoss = s.m_minLoss) ∧
    (SetMinLoss s x = { s with m_minLoss := x } ∧
      (SetMinLoss s x).m_frequency = s.m_frequency ∧ (SetMinLoss s x).m_lambda = s.m_lambda ∧
      (SetMinLoss s x).m_systemLoss = s.m_systemLoss ∧ (SetMinLoss s x).weather = s.weather) ∧
    (SetSystemLoss s x = { s with m_systemLoss := x } ∧
      (SetSystemLoss s x).m_frequency = s.m_frequency ∧
      (SetSystemLoss s x).m_lambda = s.m_lambda ∧
      (SetSystemLoss s x).m_minLoss = s.m_minLoss ∧ (SetSystemLoss s x).weather = s.weather) ∧
    ((SetFrequency s x).m_systemLoss = s.m_systemLoss ∧
      (SetFrequency s x).m_minLoss = s.m_minLoss ∧ (SetFrequency s x).weather = s.weather) := by
  refine ⟨?_, ⟨rfl, rfl, rfl, rfl, rfl⟩, ⟨rfl, rfl, rfl, rfl, rfl⟩, ⟨rfl, rfl, rfl⟩⟩
  unfold SetWeather
  split_ifs <;> exact ⟨rfl, rfl, rfl, rfl⟩

/-- C15 as stated fails: on a stage whose weather is −1 (stored by `SetWeather(-1)`), a
`DoCalcRxPower` call at 100 m does not end with an internal-invariant-violation error; it runs
to the end of the function body. -/
theorem C15_invalid_weather_raises_nothing :
    (SetWeather (⟨299792458 / 5150000000, 5150000000, 1, 0, 1⟩ :
        WeatheredFriisPropagationLossModel ℝ) (-1)).weather = -1 ∧
    (DoCalcRxPower (Real.logb 10) Real.pi
      (SetWeather (⟨299792458 / 5150000000, 5150000000, 1, 0, 1⟩ :
        WeatheredFriisPropagationLossModel ℝ) (-1)) 20 100).callEnd
      ≠ CallEnd.invariantViolation ∧
    (DoCalcRxPower (Real.logb 10) Real.pi
      (SetWeather (⟨299792458 / 5150000000, 5150000000, 1, 0, 1⟩ :
        WeatheredFriisPropagationLossModel ℝ) (-1)) 20 100).callEnd = CallEnd.endOfBody := by
  have h : (DoCalcRxPower (Real.logb 10) Real.pi
      (SetWeather (⟨299792458 / 5150000000, 5150000000, 1, 0, 1⟩ :
        WeatheredFriisPropagationLossModel ℝ) (-1)) 20 100).ret = none := by
    norm_num [DoCalcRxPower, SetWeather, int8_cast]
  refine ⟨by simp [SetWeather, int8_cast], ?_, ?_⟩
  · simp [RxResult.callEnd, h]
  · simp [RxResult.callEnd, h]

/-- C15 (amended): for a weather in {0, 1, 2} `DoCalcRxPower` returns a value at every
distance, and for a distance d ≤ 0 it returns one whatever the weather; no call of
`DoCalcRxPower` ends with an internal-invariant-violation error, for any stage. -/
theorem C15_valid_weather_returns {R : Type} [LinearOrderedField R] (log10 : R → R) (pi : R)
    (s : WeatheredFriisPropagationLossModel R) (tx d : R)
    (hw : s.weather = 0 ∨ s.weather = 1 ∨ s.weather = 2) :
    (∃ r : R, (DoCalcRxPower log10 pi s tx d).ret = some r) ∧
    (DoCalcRxPower log10 pi s tx d).callEnd = CallEnd.returned ∧
    (∀ (t : WeatheredFriisPropagationLossModel R) (e : R), e ≤ 0 →
      (DoCalcRxPower log10 pi t tx e).ret = some (tx - t.m_minLoss)) ∧
    (∀ (t : WeatheredFriisPropagationLossModel R) (e : R),
      (DoCalcRxPower log10 pi t tx e).callEnd ≠ CallEnd.invariantViolation) := by
  have hret : ∃ r : R, (DoCalcRxPower log10 pi s tx d).ret = some r := by
    rcases le_or_lt d 0 with hd | hd
    · exact ⟨_, DoCalcRxPower_ret_of_nonpos log10 pi s tx d hd⟩
    · exact ⟨_, DoCalcRxPower_ret_of_pos log10 pi s tx d hw hd⟩
  refine ⟨hret, ?_, ?_, ?_⟩
  · obtain ⟨r, hr⟩ := hret
    simp [RxResult.callEnd, hr]
  · intro t e he
    exact DoCalcRxPower_ret_of_nonpos log10 pi t tx e he
  · intro t e
    unfold RxResult.callEnd
    cases (DoCalcRxPower log10 pi t tx e).ret <;> simp

/-- Witness of C15 (amended): the 5.15 GHz stage in snow at 100 m returns a value. -/
theorem C15_valid_weather_returns_witness :
    ∃ r : ℝ, (DoCalcRxPower (Real.logb 10) Real.pi
        (⟨299792458 / 5150000000, 5150000000, 1, 0, 2⟩ : WeatheredFriisPropagationLossModel ℝ)
        20 100).ret = some r :=
  (C15_valid_weather_returns (Real.logb 10) Real.pi
    (⟨299792458 / 5150000000, 5150000000, 1, 0, 2⟩ : WeatheredFriisPropagationLossModel ℝ)
    20 100 (Or.inr (Or.inr rfl))).1

/-- C16 as stated fails: on the stage of the defaults, `SetFrequency(-1)`, `SetFrequency(0)`,
`SetSystemLoss(1/2)` and `SetMinLoss(-3)` are not refused; each stores its argument and
changes the stage, and the attribute checkers accept the same values. -/
theorem C16_invalid_configuration_is_stored :
    (SetFrequency (⟨299792458 / 5150000000, 5150000000, 1, 0, 0⟩ :
        WeatheredFriisPropagationLossModel ℝ) (-1)).m_frequency = -1 ∧
    SetFrequency (⟨299792458 / 5150000000, 5150000000, 1, 0, 0⟩ :
        WeatheredFriisPropagationLossModel ℝ) (-1)
      ≠ ⟨299792458 / 5150000000, 5150000000, 1, 0, 0⟩ ∧
    (SetFrequency (⟨299792458 / 5150000000, 5150000000, 1, 0, 0⟩ :
        WeatheredFriisPropagationLossModel ℝ) 0).m_frequency = 0 ∧
    (SetSystemLoss (⟨299792458 / 5150000000, 5150000000, 1, 0, 0⟩ :
        WeatheredFriisPropagationLossModel ℝ) (1 / 2)).m_systemLoss = 1 / 2 ∧
    SetSystemLoss (⟨299792458 / 5150000000, 5150000000, 1, 0, 0⟩ :
        WeatheredFriisPropagationLossModel ℝ) (1 / 2)
      ≠ ⟨299792458 / 5150000000, 5150000000, 1, 0, 0⟩ ∧
    (SetMinLoss (⟨299792458 / 5150000000, 5150000000, 1, 0, 0⟩ :
        WeatheredFriisPropagationLossModel ℝ) (-3)).m_minLoss = -3 ∧
    SetMinLoss (⟨299792458 / 5150000000, 5150000000, 1, 0, 0⟩ :
        WeatheredFriisPropagationLossModel ℝ) (-3)
      ≠ ⟨299792458 / 5150000000, 5150000000, 1, 0, 0⟩ ∧
    (SetAttribute_Frequency (⟨299792458 / 5150000000, 5150000000, 1, 0, 0⟩ :
        WeatheredFriisPropagationLossModel ℝ) (-1)).isSome = true := by
  refine ⟨rfl, ?_, rfl, rfl, ?_, rfl, ?_, rfl⟩
  · intro h
    have h2 := congrArg WeatheredFriisPropagationLossModel.m_frequency h
    simp only [SetFrequency] at h2
    norm_num at h2
  · intro h
    have h2 := congrArg WeatheredFriisPropagationLossModel.m_systemLoss h
    simp only [SetSystemLoss] at h2
    norm_num at h2
  · intro h
    have h2 := congrArg WeatheredFriisPropagationLossModel.m_minLoss h
    simp only [SetMinLoss] at h2
    norm_num at h2

/-- C16 (amended): no configuration value is refused. `SetFrequency`, `SetSystemLoss` and
`SetMinLoss` store every argument (a frequency ≤ 0, a systemLoss < 1 and a minLoss < 0
included), and the checkers of the attributes Frequency, SystemLoss and MinLoss accept every
value. -/
theorem C16_setters_store_every_value {R : Type} [LinearOrderedField R]
    (s : WeatheredFriisPropagationLossModel R) (x : R) :
    GetFrequency (SetFrequency s x) = x ∧
    GetSystemLoss (SetSystemLoss s x) = x ∧
    GetMinLoss (SetMinLoss s x) = x ∧
    SetAttribute_Frequency s x = some (SetFrequency s x) ∧
    SetAttribute_SystemLoss s x = some (SetSystemLoss s x) ∧
    SetAttribute_MinLoss s x = some (SetMinLoss s x) :=
  ⟨rfl, rfl, rfl, rfl, rfl, rfl⟩

/-- C17 (evaluation of the code at the failing input): the checker of WeatherVal accepts 3
and −1, the attribute stores them in the weather field of the stage of the defaults, where
`SetWeather(3)` would have been ignored, and a `DoCalcRxPower` call at 100 m then reaches no
`return`. -/
theorem C17_WeatherVal_accepts_3 :
    WeatherValChecker 3 = true ∧ WeatherValChecker (-1) = true ∧
    WeatherValChecker 127 = true ∧ WeatherValChecker (-128) = true ∧
    SetAttribute_WeatherVal (⟨299792458 / 5150000000, 5150000000, 1, 0, 0⟩ :
        WeatheredFriisPropagationLossModel ℝ) 3
      = some ⟨299792458 / 5150000000, 5150000000, 1, 0, 3⟩ ∧
    SetWeather (⟨299792458 / 5150000000, 5150000000, 1, 0, 0⟩ :
        WeatheredFriisPropagationLossModel ℝ) 3
      = ⟨299792458 / 5150000000, 5150000000, 1, 0, 0⟩ ∧
    (DoCalcRxPower (Real.logb 10) Real.pi
      (⟨299792458 / 5150000000, 5150000000, 1, 0, 3⟩ : WeatheredFriisPropagationLossModel ℝ)
      20 100).ret = none := by
  refine ⟨by decide, by decide, by decide, by decide, ?_, ?_, ?_⟩
  · simp [SetAttribute_WeatherVal, WeatherValChecker]
  · simp [SetWeather]
  · norm_num [DoCalcRxPower]

/-- C18: `SetWeather(v)` writes the weather field exactly when v < 3: every v < 3, the
negative ones included, is stored (narrowed to `int8_t`, so for −128 ≤ v < 0 the stored
weather is v itself), and only v ≥ 3 is ignored; after `SetWeather(-1)` a `DoCalcRxPower` call
at a distance d > 0 matches none of the three weather branches and reaches no `return`. -/
theorem C18_SetWeather_guard {R : Type} [LinearOrderedField R] (log10 : R → R) (pi : R)
    (s : WeatheredFriisPropagationLossModel R) (v : Int) (tx d : R) :
    (v < 3 → SetWeather s v = { s with weather := int8_cast v }) ∧
    (3 ≤ v → SetWeather s v = s) ∧
    (-128 ≤ v → v < 0 → (SetWeather s v).weather = v) ∧
    (SetWeather s (-1)).weather = -1 ∧
    (0 < d →
      (DoCalcRxPower log10 pi (SetWeather s (-1)) tx d).ret = none ∧
      (DoCalcRxPower log10 pi (SetWeather s (-1)) tx d).callEnd = CallEnd.endOfBody) := by
  have hm1 : (SetWeather s (-1)).weather = -1 := by simp [SetWeather, int8_cast]
  refine ⟨?_, ?_, ?_, hm1, ?_⟩
  · intro hv
    simp [SetWeather, hv]
  · intro hv
    simp [SetWeather, not_lt.mpr hv]
  · intro hlo hneg
    have hv : v < 3 := by omega
    simp only [SetWeather, hv, if_true, int8_cast]
    omega
  · intro hd
    have hret : (DoCalcRxPower log10 pi (SetWeather s (-1)) tx d).ret = none := by
      simp [DoCalcRxPower, hm1, not_le.mpr hd]
    exact ⟨hret, by simp [RxResult.callEnd, hret]⟩

/-- Witness of C18: `SetWeather(-1)` on the 5.15 GHz stage in rain, then a call at 100 m. -/
theorem C18_SetWeather_guard_witness :
    (DoCalcRxPower (Real.logb 10) Real.pi
      (SetWeather (⟨299792458 / 5150000000, 5150000000, 1, 0, 1⟩ :
        WeatheredFriisPropagationLossModel ℝ) (-1)) 20 100).ret = none :=
  ((C18_SetWeather_guard (Real.logb 10) Real.pi
    (⟨299792458 / 5150000000, 5150000000, 1, 0, 1⟩ : WeatheredFriisPropagationLossModel ℝ)
    (-1) 20 100).2.2.2.2 (by norm_num)).1

/-- C19 as stated fails: there is no stage with minLoss ≥ 0, weather in {0, 1, 2},
txPowerDbm and distance d > 0 for which the total attenuation `txPowerDbm − DoCalcRxPower` is
strictly smaller than minLoss. -/
theorem C19_no_attenuation_below_minLoss :
    ¬ ∃ (s : WeatheredFriisPropagationLossModel ℝ) (tx d r : ℝ),
        0 ≤ s.m_minLoss ∧ (s.weather = 0 ∨ s.weather = 1 ∨ s.weather = 2) ∧ 0 < d ∧
        (DoCalcRxPower (Real.logb 10) Real.pi s tx d).ret = some r ∧
        tx - r < s.m_minLoss := by
  rintro ⟨s, tx, d, r, _, hw, hd, hr, hlt⟩
  obtain ⟨r2, hr2, _, hge⟩ := attenuation_of_pos (Real.logb 10) Real.pi s tx d hw hd
  rw [hr] at hr2
  cases hr2
  linarith

/-- C19 (amended): the weather offset is subtracted from the received power after the minLoss
floor is applied to the geometric loss, so it adds to the attenuation: for every stage,
weather in {0, 1, 2}, txPowerDbm and distance d > 0, the total attenuation
`txPowerDbm − DoCalcRxPower` is `max(lossDb, minLoss) + offset`, which is at least minLoss. -/
theorem C19_minLoss_floors_attenuation {R : Type} [LinearOrderedField R] (log10 : R → R)
    (pi : R) (s : WeatheredFriisPropagationLossModel R) (tx d : R)
    (hw : s.weather = 0 ∨ s.weather = 1 ∨ s.weather = 2) (hd : 0 < d) :
    ∃ r : R, (DoCalcRxPower log10 pi s tx d).ret = some r ∧
      tx - r = max (specLossDb log10 pi s.m_lambda d s.m_systemLoss) s.m_minLoss
        + weatherOffset s.weather ∧
      s.m_minLoss ≤ tx - r :=
  attenuation_of_pos log10 pi s tx d hw hd

/-- Witness of C19 (amended): the 5.15 GHz stage with minLoss 200 dB, in snow at 100 m. -/
theorem C19_minLoss_floors_attenuation_witness :
    ∃ r : ℝ, (DoCalcRxPower (Real.logb 10) Real.pi
        (⟨299792458 / 5150000000, 5150000000, 1, 200, 2⟩ : WeatheredFriisPropagationLossModel ℝ)
        20 100).ret = some r ∧ (200 : ℝ) ≤ 20 - r := by
  obtain ⟨r, hr, _, hge⟩ := C19_minLoss_floors_attenuation (Real.logb 10) Real.pi
    (⟨299792458 / 5150000000, 5150000000, 1, 200, 2⟩ : WeatheredFriisPropagationLossModel ℝ)
    20 100 (Or.inr (Or.inr rfl)) (by norm_num)
  exact ⟨r, hr, hge⟩

/-- C20: in the rain experiment (initial `SetWeather(0)`, then the events (3 s, 0), (6 s, 1),
(9 s, 2), (12 s, 1), (15 s, 2), (18 s, 1), (21 s, 0) in time order), the weather at a time t
of the run is the value of the latest event with time ≤ t: Clear on [0, 6), Rain on [6, 9),
Snow on [9, 12), Rain on [12, 15), Snow on [15, 18), Rain on [18, 21), Clear from 21 s on
(the run stops at 30 s); it is in {0, 1, 2} at every time. -/
theorem C20_rain_schedule {R : Type} (s0 : WeatheredFriisPropagationLossModel R) (t : ℚ) :
    (rainExperimentStage s0 t).weather = latestEventValue rainSchedule 0 t ∧
    (t < 6 → (rainExperimentStage s0 t).weather = 0) ∧
    (6 ≤ t → t < 9 → (rainExperimentStage s0 t).weather = 1) ∧
    (9 ≤ t → t < 12 → (rainExperimentStage s0 t).weather = 2) ∧
    (12 ≤ t → t < 15 → (rainExperimentStage s0 t).weather = 1) ∧
    (15 ≤ t → t < 18 → (rainExperimentStage s0 t).weather = 2) ∧
    (18 ≤ t → t < 21 → (rainExperimentStage s0 t).weather = 1) ∧
    (21 ≤ t → (rainExperimentStage s0 t).weather = 0) ∧
    ((rainExperimentStage s0 t).weather = 0 ∨ (rainExperimentStage s0 t).weather = 1 ∨
      (rainExperimentStage s0 t).weather = 2) := by
  have hw := rainExperimentStage_weather s0 t
  have c1 : t < 6 → latestEventValue rainSchedule 0 t = 0 := by
    intro h
    have n6 : ¬ (6 : ℚ) ≤ t := not_le.mpr h
    have n9 : ¬ (9 : ℚ) ≤ t := not_le.mpr (by linarith)
    have n12 : ¬ (12 : ℚ) ≤ t := not_le.mpr (by linarith)
    have n15 : ¬ (15 : ℚ) ≤ t := not_le.mpr (by linarith)
    have n18 : ¬ (18 : ℚ) ≤ t := not_le.mpr (by linarith)
    have n21 : ¬ (21 : ℚ) ≤ t := not_le.mpr (by linarith)
    by_cases h3 : (3 : ℚ) ≤ t <;>
      simp [latestEventValue, rainSchedule, List.filter, h3, n6, n9, n12, n15, n18, n21]
  have c2 : 6 ≤ t → t < 9 → latestEventValue rainSchedule 0 t = 1 := by
    intro h6 h
    have h3 : (3 : ℚ) ≤ t := by linarith
    have n9 : ¬ (9 : ℚ) ≤ t := not_le.mpr h
    have n12 : ¬ (12 : ℚ) ≤ t := not_le.mpr (by linarith)
    have n15 : ¬ (15 : ℚ) ≤ t := not_le.mpr (by linarith)
    have n18 : ¬ (18 : ℚ) ≤ t := not_le.mpr (by linarith)
    have n21 : ¬ (21 : ℚ) ≤ t := not_le.mpr (by linarith)
    simp [latestEventValue, rainSchedule, List.filter, h3, h6, n9, n12, n15, n18, n21]
  have c3 : 9 ≤ t → t < 12 → latestEventValue rainSchedule 0 t = 2 := by
    intro h9 h
    have h3 : (3 : ℚ) ≤ t := by linarith
    have h6 : (6 : ℚ) ≤ t := by linarith
    have n12 : ¬ (12 : ℚ) ≤ t := not_le.mpr h
    have n15 : ¬ (15 : ℚ) ≤ t := not_le.mpr (by linarith)
    have n18 : ¬ (18 : ℚ) ≤ t := not_le.mpr (by linarith)
    have n21 : ¬ (21 : ℚ) ≤ t := not_le.mpr (by linarith)
    simp [latestEventValue, rainSchedule, List.filter, h3, h6, h9, n12, n15, n18, n21]
  have c4 : 12 ≤ t → t < 15 → latestEventValue rainSchedule 0 t = 1 := by
    intro h12 h
    have h3 : (3 : ℚ) ≤ t := by linarith
    have h6 : (6 : ℚ) ≤ t := by linarith
    have h9 : (9 : ℚ) ≤ t := by linarith
    have n15 : ¬ (15 : ℚ) ≤ t := not_le.mpr h
    have n18 : ¬ (18 : ℚ) ≤ t := not_le.mpr (by linarith)
    have n21 : ¬ (21 : ℚ) ≤ t := not_le.mpr (by linarith)
    simp [latestEventValue, rainSchedule, List.filter, h3, h6, h9, h12, n15, n18, n21]
  have c5 : 15 ≤ t → t < 18 → latestEventValue rainSchedule 0 t = 2 := by
    intro h15 h
    have h3 : (3 : ℚ) ≤ t := by linarith
    have h6 : (6 : ℚ) ≤ t := by linarith
    have h9 : (9 : ℚ) ≤ t := by linarith
    have h12 : (12 : ℚ) ≤ t := by linarith
    have n18 : ¬ (18 : ℚ) ≤ t := not_le.mpr h
    have n21 : ¬ (21 : ℚ) ≤ t := not_le.mpr (by linarith)
    simp [latestEventValue, rainSchedule, List.filter, h3, h6, h9, h12, h15, n18, n21]
  have c6 : 18 ≤ t → t < 21 → latestEventValue rainSchedule 0 t = 1 := by
    intro h18 h
    have h3 : (3 : ℚ) ≤ t := by linarith
    have h6 : (6 : ℚ) ≤ t := by linarith
    have h9 : (9 : ℚ) ≤ t := by linarith
    have h12 : (12 : ℚ) ≤ t := by linarith
    have h15 : (15 : ℚ) ≤ t := by linarith
    have n21 : ¬ (21 : ℚ) ≤ t := not_le.mpr h
    simp [latestEventValue, rainSchedule, List.filter, h3, h6, h9, h12, h15, h18, n21]
  have c7 : 21 ≤ t → latestEventValue rainSchedule 0 t = 0 := by
    intro h21
    have h3 : (3 : ℚ) ≤ t := by linarith
    have h6 : (6 : ℚ) ≤ t := by linarith
    have h9 : (9 : ℚ) ≤ t := by linarith
    have h12 : (12 : ℚ) ≤ t := by linarith
    have h15 : (15 : ℚ) ≤ t := by linarith
    have h18 : (18 : ℚ) ≤ t := by linarith
    simp [latestEventValue, rainSchedule, List.filter, h3, h6, h9, h12, h15, h18, h21]
  rw [hw]
  refine ⟨rfl, c1, c2, c3, c4, c5, c6, c7, ?_⟩
  rcases lt_or_le t 6 with a | a
  · exact Or.inl (c1 a)
  rcases lt_or_le t 9 with b | b
  · exact Or.inr (Or.inl (c2 a b))
  rcases lt_or_le t 12 with c | c
  · exact Or.inr (Or.inr (c3 b c))
  rcases lt_or_le t 15 with d | d
  · exact Or.inr (Or.inl (c4 c d))
  rcases lt_or_le t 18 with e | e
  · exact Or.inr (Or.inr (c5 d e))
  rcases lt_or_le t 21 with f | f
  · exact Or.inr (Or.inl (c6 e f))
  · exact Or.inl (c7 f)

/-- Witness of C20: at 10 s the stage of the rain experiment is in snow. -/
theorem C20_rain_schedule_witness :
    (rainExperimentStage (⟨299792458 / 5150000000, 5150000000, 1, 0, 0⟩ :
        WeatheredFriisPropagationLossModel ℝ) 10).weather = 2 :=
  (C20_rain_schedule (⟨299792458 / 5150000000, 5150000000, 1, 0, 0⟩ :
      WeatheredFriisPropagationLossModel ℝ) 10).2.2.2.1 (by norm_num) (by norm_num)

/-- C21: `SetWeather` stores its `int` argument in an 8-bit signed field, so for v < −128 the
stored weather is v reduced modulo 256 into [−128, 127]; `SetWeather(-254)` leaves weather 2
and `SetWeather(-256)` leaves weather 0, and a `DoCalcRxPower` call at a distance d > 0 then
returns the result of Snow, respectively of Clear. -/
theorem C21_SetWeather_narrowing {R : Type} [LinearOrderedField R] (log10 : R → R) (pi : R)
    (s : WeatheredFriisPropagationLossModel R) (v : Int) (tx d : R) (hv : v < -128) :
    (SetWeather s v).weather = (v + 128) % 256 - 128 ∧
    -128 ≤ (SetWeather s v).weather ∧ (SetWeather s v).weather ≤ 127 ∧
    ((SetWeather s v).weather - v) % 256 = 0 ∧
    (SetWeather s (-254)).weather = 2 ∧
    (SetWeather s (-256)).weather = 0 ∧
    (0 < d →
      (DoCalcRxPower log10 pi (SetWeather s (-254)) tx d).ret
        = some (tx - max (specLossDb log10 pi s.m_lambda d s.m_systemLoss) s.m_minLoss - 10) ∧
      (DoCalcRxPower log10 pi (SetWeather s (-256)) tx d).ret
        = some (tx - max (specLossDb log10 pi s.m_lambda d s.m_systemLoss) s.m_minLoss - 0)) := by
  have hlt : v < 3 := by omega
  have hw : (SetWeather s v).weather = (v + 128) % 256 - 128 := by
    simp [SetWeather, hlt, int8_cast]
  have h254 : SetWeather s (-254) = { s with weather := 2 } := by
    simp [SetWeather, int8_cast]
  have h256 : SetWeather s (-256) = { s with weather := 0 } := by
    simp [SetWeather, int8_cast]
  refine ⟨hw, ?_, ?_, ?_, by rw [h254], by rw [h256], ?_⟩
  · rw [hw]; omega
  · rw [hw]; omega
  · rw [hw]; omega
  · intro hd
    have e2 := DoCalcRxPower_ret_of_pos log10 pi { s with weather := 2 } tx d
      (Or.inr (Or.inr rfl)) hd
    have e0 := DoCalcRxPower_ret_of_pos log10 pi { s with weather := 0 } tx d (Or.inl rfl) hd
    rw [h254, h256]
    refine ⟨?_, ?_⟩
    · simpa [weatherOffset] using e2
    · simpa [weatherOffset] using e0

/-- Witness of C21: `SetWeather(-254)` on the 5.15 GHz stage in rain stores Snow. -/
theorem C21_SetWeather_narrowing_witness :
    (SetWeather (⟨299792458 / 5150000000, 5150000000, 1, 0, 1⟩ :
        WeatheredFriisPropagationLossModel ℝ) (-254)).weather = (-254 + 128) % 256 - 128 ∧
    (SetWeather (⟨299792458 / 5150000000, 5150000000, 1, 0, 1⟩ :
        WeatheredFriisPropagationLossModel ℝ) (-254)).weather = 2 :=
  ⟨(C21_SetWeather_narrowing (Real.logb 10) Real.pi
      (⟨299792458 / 5150000000, 5150000000, 1, 0, 1⟩ : WeatheredFriisPropagationLossModel ℝ)
      (-254) 20 100 (by decide)).1,
   (C21_SetWeather_narrowing (Real.logb 10) Real.pi
      (⟨299792458 / 5150000000, 5150000000, 1, 0, 1⟩ : WeatheredFriisPropagationLossModel ℝ)
      (-254) 20 100 (by decide)).2.2.2.2.1⟩

/-- C22: the loss of a weathered Friis stage does not depend on the transmitted power: for a
weather in {0, 1, 2}, every distance and all tx and k, `DoCalcRxPower(tx + k)` is
`DoCalcRxPower(tx) + k` and the same lines are written; so the output of one weathered stage
fed into another is tx minus the sum of the losses of the two stages. -/
theorem C22_loss_independent_of_tx {R : Type} [LinearOrderedField R] (log10 : R → R) (pi : R)
    (s : WeatheredFriisPropagationLossModel R) (tx k d : R)
    (hw : s.weather = 0 ∨ s.weather = 1 ∨ s.weather = 2) :
    (∃ r : R, (DoCalcRxPower log10 pi s tx d).ret = some r ∧
      (DoCalcRxPower log10 pi s (tx + k) d).ret = some (r + k)) ∧
    (DoCalcRxPower log10 pi s (tx + k) d).out = (DoCalcRxPower log10 pi s tx d).out ∧
    (∀ s2 : WeatheredFriisPropagationLossModel R,
      (s2.weather = 0 ∨ s2.weather = 1 ∨ s2.weather = 2) →
      ∃ r1 r2 r12 : R,
        (DoCalcRxPower log10 pi s tx d).ret = some r1 ∧
        (DoCalcRxPower log10 pi s2 tx d).ret = some r2 ∧
        (DoCalcRxPower log10 pi s2 r1 d).ret = some r12 ∧
        r12 = tx - ((tx - r1) + (tx - r2))) := by
  have shift : ∀ (t : WeatheredFriisPropagationLossModel R),
      (t.weather = 0 ∨ t.weather = 1 ∨ t.weather = 2) → ∀ a j : R,
      ∃ r : R, (DoCalcRxPower log10 pi t a d).ret = some r ∧
        (DoCalcRxPower log10 pi t (a + j) d).ret = some (r + j) := by
    intro t ht a j
    rcases le_or_lt d 0 with hd | hd
    · refine ⟨_, DoCalcRxPower_ret_of_nonpos log10 pi t a d hd, ?_⟩
      rw [DoCalcRxPower_ret_of_nonpos log10 pi t (a + j) d hd]
      congr 1
      ring
    · refine ⟨_, DoCalcRxPower_ret_of_pos log10 pi t a d ht hd, ?_⟩
      rw [DoCalcRxPower_ret_of_pos log10 pi t (a + j) d ht hd]
      congr 1
      ring
  refine ⟨shift s hw tx k, ?_, ?_⟩
  · rw [DoCalcRxPower_out, DoCalcRxPower_out]
  · intro s2 hw2
    obtain ⟨r1, h1, _⟩ := shift s hw tx 0
    obtain ⟨r2, h2, h2k⟩ := shift s2 hw2 tx (r1 - tx)
    refine ⟨r1, r2, r2 + (r1 - tx), h1, h2, ?_, by ring⟩
    have e : tx + (r1 - tx) = r1 := by ring
    rw [e] at h2k
    exact h2k

/-- Witness of C22: the 5.15 GHz stage in rain at 100 m, with 20 dBm and 3 dB more. -/
theorem C22_loss_independent_of_tx_witness :
    ∃ r : ℝ, (DoCalcRxPower (Real.logb 10) Real.pi
        (⟨299792458 / 5150000000, 5150000000, 1, 0, 1⟩ : WeatheredFriisPropagationLossModel ℝ)
        20 100).ret = some r ∧
      (DoCalcRxPower (Real.logb 10) Real.pi
        (⟨299792458 / 5150000000, 5150000000, 1, 0, 1⟩ : WeatheredFriisPropagationLossModel ℝ)
        (20 + 3) 100).ret = some (r + 3) :=
  (C22_loss_independent_of_tx (Real.logb 10) Real.pi
    (⟨299792458 / 5150000000, 5150000000, 1, 0, 1⟩ : WeatheredFriisPropagationLossModel ℝ)
    20 3 100 (Or.inr (Or.inl rfl))).1

/-- C23: `DoCalcRxPower` writes the near-field line if and only if the distance is below
three wavelengths: with wavelength > 0 it is written in the degenerate case d ≤ 0 too, before
`txPowerDbm − minLoss` is returned, and it is not written when d ≥ 3·wavelength. -/
theorem C23_diagnostic_iff {R : Type} [LinearOrderedField R] (log10 : R → R) (pi : R)
    (s : WeatheredFriisPropagationLossModel R) (tx d : R) :
    ((DoCalcRxPower log10 pi s tx d).out = [farFieldMsg] ↔ d < 3 * s.m_lambda) ∧
    ((DoCalcRxPower log10 pi s tx d).out = [] ↔ 3 * s.m_lambda ≤ d) ∧
    (0 < s.m_lambda → d ≤ 0 →
      (DoCalcRxPower log10 pi s tx d).out = [farFieldMsg] ∧
      (DoCalcRxPower log10 pi s tx d).ret = some (tx - s.m_minLoss)) := by
  have hout := DoCalcRxPower_out log10 pi s tx d
  refine ⟨?_, ?_, ?_⟩
  · rw [hout]
    by_cases h : d < 3 * s.m_lambda <;> simp [h]
  · rw [hout]
    by_cases h : d < 3 * s.m_lambda
    · simp [h]
    · simp [h, not_lt.mp h]
  · intro hlam hd
    have hnear : d < 3 * s.m_lambda := lt_of_le_of_lt hd (by linarith)
    exact ⟨by rw [hout, if_pos hnear], DoCalcRxPower_ret_of_nonpos log10 pi s tx d hd⟩

/-- Witness of C23: at distance 0 the 5.15 GHz stage writes the line and returns
`txPowerDbm − minLoss`. -/
theorem C23_diagnostic_iff_witness :
    (DoCalcRxPower (Real.logb 10) Real.pi
        (⟨299792458 / 5150000000, 5150000000, 1, 0, 1⟩ : WeatheredFriisPropagationLossModel ℝ)
        20 0).out = [farFieldMsg] ∧
    (DoCalcRxPower (Real.logb 10) Real.pi
        (⟨299792458 / 5150000000, 5150000000, 1, 0, 1⟩ : WeatheredFriisPropagationLossModel ℝ)
        20 0).ret = some (20 - 0) :=
  (C23_diagnostic_iff (Real.logb 10) Real.pi
    (⟨299792458 / 5150000000, 5150000000, 1, 0, 1⟩ : WeatheredFriisPropagationLossModel ℝ)
    20 0).2.2 (by norm_num) (le_refl 0)

/-- C24: inverse-square law: for wavelength ≠ 0, systemLoss > 0 and d > 0 the geometric loss
satisfies `lossDb(2·d) − lossDb(d) = 20·log10(2)`; so when `lossDb(d) ≥ minLoss` and the
weather is in {0, 1, 2}, doubling the distance lowers `DoCalcRxPower` by exactly
`20·log10(2)` dB. -/
theorem C24_inverse_square (s : WeatheredFriisPropagationLossModel ℝ) (tx d : ℝ)
    (hlam : s.m_lambda ≠ 0) (hL : 0 < s.m_systemLoss) (hd : 0 < d) :
    -10 * Real.logb 10 (s.m_lambda ^ 2 / (16 * Real.pi ^ 2 * (2 * d) ^ 2 * s.m_systemLoss))
        - -10 * Real.logb 10 (s.m_lambda ^ 2 / (16 * Real.pi ^ 2 * d ^ 2 * s.m_systemLoss))
      = 20 * Real.logb 10 2 ∧
    (s.m_minLoss
        ≤ -10 * Real.logb 10 (s.m_lambda ^ 2 / (16 * Real.pi ^ 2 * d ^ 2 * s.m_systemLoss)) →
      (s.weather = 0 ∨ s.weather = 1 ∨ s.weather = 2) →
      ∃ r1 r2 : ℝ,
        (DoCalcRxPower (Real.logb 10) Real.pi s tx d).ret = some r1 ∧
        (DoCalcRxPower (Real.logb 10) Real.pi s tx (2 * d)).ret = some r2 ∧
        r1 - r2 = 20 * Real.logb 10 2) := by
  have hdbl := specLossDb_double s.m_lambda s.m_systemLoss d hlam hL hd
  have hlog2 : 0 < Real.logb 10 2 := Real.logb_pos (by norm_num) (by norm_num)
  refine ⟨?_, ?_⟩
  · have h := hdbl
    unfold specLossDb at h
    linarith
  · intro hmin hw
    have hmin1 : s.m_minLoss ≤ specLossDb (Real.logb 10) Real.pi s.m_lambda d s.m_systemLoss :=
      hmin
    have hmin2 : s.m_minLoss
        ≤ specLossDb (Real.logb 10) Real.pi s.m_lambda (2 * d) s.m_systemLoss := by
      rw [hdbl]
      linarith
    have e1 := DoCalcRxPower_ret_of_pos (Real.logb 10) Real.pi s tx d hw hd
    have e2 := DoCalcRxPower_ret_of_pos (Real.logb 10) Real.pi s tx (2 * d) hw (by linarith)
    refine ⟨_, _, e1, e2, ?_⟩
    rw [max_eq_left hmin1, max_eq_left hmin2, hdbl]
    ring

/-- Witness of C24: the 5.15 GHz stage, from 100 m to 200 m. -/
theorem C24_inverse_square_witness :
    -10 * Real.logb 10
          ((299792458 / 5150000000 : ℝ) ^ 2 / (16 * Real.pi ^ 2 * (2 * 100) ^ 2 * 1))
        - -10 * Real.logb 10
          ((299792458 / 5150000000 : ℝ) ^ 2 / (16 * Real.pi ^ 2 * (100 : ℝ) ^ 2 * 1))
      = 20 * Real.logb 10 2 :=
  (C24_inverse_square
    (⟨299792458 / 5150000000, 5150000000, 1, 0, 0⟩ : WeatheredFriisPropagationLossModel ℝ)
    20 100 (by norm_num) (by norm_num) (by norm_num)).1

/-- C25: `EuclideanDistance(v1, v2)` is the square root of the sum of the squared differences
of the x, y and z coordinates; it is symmetric, never negative, and zero exactly when v1 and
v2 have the same three coordinates. -/
theorem C25_EuclideanDistance (v1 v2 : Vector ℝ) :
    EuclideanDistance Real.sqrt v1 v2
      = Real.sqrt ((v1.x - v2.x) ^ 2 + (v1.y - v2.y) ^ 2 + (v1.z - v2.z) ^ 2) ∧
    EuclideanDistance Real.sqrt v1 v2 = EuclideanDistance Real.sqrt v2 v1 ∧
    0 ≤ EuclideanDistance Real.sqrt v1 v2 ∧
    (EuclideanDistance Real.sqrt v1 v2 = 0 ↔ v1.x = v2.x ∧ v1.y = v2.y ∧ v1.z = v2.z) := by
  have hform : EuclideanDistance Real.sqrt v1 v2
      = Real.sqrt ((v1.x - v2.x) ^ 2 + (v1.y - v2.y) ^ 2 + (v1.z - v2.z) ^ 2) := by
    unfold EuclideanDistance
    simp only []
    congr 1
    ring
  have hsymm : EuclideanDistance Real.sqrt v1 v2 = EuclideanDistance Real.sqrt v2 v1 := by
    unfold EuclideanDistance
    simp only []
    congr 1
    ring
  have hnn : 0 ≤ (v1.x - v2.x) ^ 2 + (v1.y - v2.y) ^ 2 + (v1.z - v2.z) ^ 2 := by positivity
  refine ⟨hform, hsymm, by rw [hform]; exact Real.sqrt_nonneg _, ?_⟩
  rw [hform, Real.sqrt_eq_zero hnn]
  constructor
  · intro h
    have a := sq_nonneg (v1.x - v2.x)
    have b := sq_nonneg (v1.y - v2.y)
    have c := sq_nonneg (v1.z - v2.z)
    have hx : (v1.x - v2.x) ^ 2 = 0 := by linarith
    have hy : (v1.y - v2.y) ^ 2 = 0 := by linarith
    have hz : (v1.z - v2.z) ^ 2 = 0 := by linarith
    exact ⟨sub_eq_zero.mp (pow_eq_zero hx), sub_eq_zero.mp (pow_eq_zero hy),
      sub_eq_zero.mp (pow_eq_zero hz)⟩
  · rintro ⟨hx, hy, hz⟩
    rw [hx, hy, hz]
    ring

/-- C26: the unit helpers are mutually inverse over the reals:
`DbmFromW(DbmToW(x)) = x` for every x and `DbmToW(DbmFromW(w)) = w` for every w > 0, where
`DbmToW(x) = 10^(x/10) / 1000` and `DbmFromW(w) = 10·log10(1000·w)`; `DbmToW(30) = 1` and
`DbmFromW(0.001) = 0`. -/
theorem C26_dbm_watt_inverse (x w : ℝ) (hw : 0 < w) :
    DbmToW (fun a b : ℝ => a ^ b) x = (10 : ℝ) ^ (x / 10) / 1000 ∧
    DbmFromW (Real.logb 10) w = 10 * Real.logb 10 (1000 * w) ∧
    DbmFromW (Real.logb 10) (DbmToW (fun a b : ℝ => a ^ b) x) = x ∧
    DbmToW (fun a b : ℝ => a ^ b) (DbmFromW (Real.logb 10) w) = w ∧
    DbmToW (fun a b : ℝ => a ^ b) 30 = 1 ∧
    DbmFromW (Real.logb 10) 0.001 = 0 := by
  have h10 : (0 : ℝ) < 10 := by norm_num
  have h10ne : (10 : ℝ) ≠ 1 := by norm_num
  refine ⟨rfl, ?_, ?_, ?_, ?_, ?_⟩
  · simp only [DbmFromW]
    rw [mul_comm w 1000]
    ring
  · simp only [DbmToW, DbmFromW]
    rw [div_mul_cancel₀ _ (by norm_num : (1000 : ℝ) ≠ 0), Real.logb_rpow h10 h10ne]
    ring
  · simp only [DbmToW, DbmFromW]
    have hpos : 0 < w * 1000 := by positivity
    rw [mul_div_assoc, div_self (by norm_num : (10 : ℝ) ≠ 0), mul_one,
      Real.rpow_logb h10 h10ne hpos]
    field_simp
  · simp only [DbmToW]
    have e : (30 : ℝ) / 10 = ((3 : ℕ) : ℝ) := by norm_num
    rw [e, Real.rpow_natCast]
    norm_num
  · simp only [DbmFromW]
    have e : (0.001 : ℝ) * 1000 = 1 := by norm_num
    rw [e, Real.logb_one]
    ring

/-- Witness of C26: one watt is 30 dBm, and back. -/
theorem C26_dbm_watt_inverse_witness :
    DbmFromW (Real.logb 10) (DbmToW (fun a b : ℝ => a ^ b) 30) = 30 ∧
    DbmToW (fun a b : ℝ => a ^ b) (DbmFromW (Real.logb 10) 1) = 1 :=
  ⟨(C26_dbm_watt_inverse 30 1 one_pos).2.2.1, (C26_dbm_watt_inverse 30 1 one_pos).2.2.2.1⟩

end WeatheredFriis
